import Mathlib

/-!
# Lifetime statistics of the Marlin firmware (`Marlin/lifetime_stats.cpp`)

A shallow embedding of the lifetime / trip counters, of the printing-session
detector and of the EEPROM record that keeps the counters across power cycles.

Modelling conventions

* `unsigned long` is 32 bits wide on the AVR target: counters and deadlines are
  natural numbers, every arithmetic result is reduced with `u32`.
* `float` quantities (`last_e_pos`, `accumulated_e_diff`, the E position and the
  volumetric multiplier) are exact rationals; rounding is outside the model.
* The EEPROM is a map from byte addresses to bytes; the avr-libc double-word
  accessors are little-endian over four consecutive bytes.
* The collaborators (`millis()`, `current_position[E_AXIS]`,
  `volumetric_multiplier[active_extruder]`, `movesplanned()`, `IS_SD_PRINTING`)
  are sampled into an `Env` value handed to each entry point.
-/

namespace LifetimeStats

/-! ## Constants -/

/-- Magic word `LIFETIME_MAGIC`. -/
def LIFETIME_MAGIC : Nat := 0x2624BA15

/-- One minute in milliseconds, `MILLIS_MINUTE`. -/
def MILLIS_MINUTE : Nat := 1000 * 60

/-- One hour in milliseconds, `MILLIS_HOUR`. -/
def MILLIS_HOUR : Nat := MILLIS_MINUTE * 60

/-- Base address of the record, `LIFETIME_EEPROM_OFFSET`. -/
def LIFETIME_EEPROM_OFFSET : Nat := 0x700

/-- Reduction of an arithmetic result to the 32-bit `unsigned long`. -/
def u32 (x : Nat) : Nat := x % 2 ^ 32

/-! ## EEPROM -/

/-- Byte-addressable non-volatile storage. -/
abbrev Eeprom := Nat → Nat

/-- Read of one byte. -/
def eeprom_read_byte (e : Eeprom) (a : Nat) : Nat := e a % 256

/-- Write of one byte. -/
def eeprom_write_byte (e : Eeprom) (a v : Nat) : Eeprom :=
  fun i => if i = a then v % 256 else e i

/-- Little-endian read of a 32-bit word, `eeprom_read_dword`. -/
def eeprom_read_dword (e : Eeprom) (a : Nat) : Nat :=
  eeprom_read_byte e a + 256 * eeprom_read_byte e (a + 1)
    + 65536 * eeprom_read_byte e (a + 2) + 16777216 * eeprom_read_byte e (a + 3)

/-- Little-endian write of a 32-bit word, `eeprom_write_dword`. -/
def eeprom_write_dword (e : Eeprom) (a v : Nat) : Eeprom :=
  eeprom_write_byte
    (eeprom_write_byte
      (eeprom_write_byte (eeprom_write_byte e a v) (a + 1) (v / 256))
      (a + 2) (v / 65536))
    (a + 3) (v / 16777216)

/-! ## State and environment -/

/-- Values the collaborators report at one call of an entry point. -/
structure Env where
  /-- Result of `millis()`. -/
  millis : Nat
  /-- Value of `current_position[E_AXIS]`. -/
  current_position_E : ℚ
  /-- Table `volumetric_multiplier`. -/
  volumetric_multiplier : Nat → ℚ
  /-- Index `active_extruder`. -/
  active_extruder : Nat
  /-- Result of `movesplanned()`. -/
  movesplanned : Nat
  /-- Value of `IS_SD_PRINTING`. -/
  IS_SD_PRINTING : Bool

/-- The module's variables together with the EEPROM content. -/
structure State where
  minute_counter_millis : Nat
  hour_save_millis : Nat
  last_e_pos : ℚ
  accumulated_e_diff : ℚ
  lifetime_minutes : Nat
  lifetime_print_minutes : Nat
  lifetime_print_centimeters : Nat
  triptime_minutes : Nat
  triptime_print_minutes : Nat
  triptime_print_centimeters : Nat
  is_printing : Bool
  eeprom : Eeprom

/-- All six counters fit the 32-bit `unsigned long`. -/
def State.Counters32 (s : State) : Prop :=
  s.lifetime_minutes < 2 ^ 32 ∧ s.lifetime_print_minutes < 2 ^ 32 ∧
  s.lifetime_print_centimeters < 2 ^ 32 ∧ s.triptime_minutes < 2 ^ 32 ∧
  s.triptime_print_minutes < 2 ^ 32 ∧ s.triptime_print_centimeters < 2 ^ 32

/-- The six counters in record order. -/
def State.counters (s : State) : List Nat :=
  [s.lifetime_minutes, s.lifetime_print_minutes, s.lifetime_print_centimeters,
   s.triptime_minutes, s.triptime_print_minutes, s.triptime_print_centimeters]

/-- Variables as the C runtime zero-initialises them, over a given EEPROM. -/
def power_on (e : Eeprom) : State :=
  { minute_counter_millis := 0, hour_save_millis := 0, last_e_pos := 0,
    accumulated_e_diff := 0, lifetime_minutes := 0, lifetime_print_minutes := 0,
    lifetime_print_centimeters := 0, triptime_minutes := 0,
    triptime_print_minutes := 0, triptime_print_centimeters := 0,
    is_printing := false, eeprom := e }

/-! ## Load and save -/

/-- Function `load_lifetime_stats`. -/
def load_lifetime_stats (s : State) : State :=
  let magic := eeprom_read_dword s.eeprom (LIFETIME_EEPROM_OFFSET + 0)
  if magic = LIFETIME_MAGIC then
    { s with
      lifetime_minutes := eeprom_read_dword s.eeprom (LIFETIME_EEPROM_OFFSET + 4)
      lifetime_print_minutes := eeprom_read_dword s.eeprom (LIFETIME_EEPROM_OFFSET + 8)
      lifetime_print_centimeters := eeprom_read_dword s.eeprom (LIFETIME_EEPROM_OFFSET + 12)
      triptime_minutes := eeprom_read_dword s.eeprom (LIFETIME_EEPROM_OFFSET + 16)
      triptime_print_minutes := eeprom_read_dword s.eeprom (LIFETIME_EEPROM_OFFSET + 20)
      triptime_print_centimeters := eeprom_read_dword s.eeprom (LIFETIME_EEPROM_OFFSET + 24) }
  else
    { s with
      lifetime_minutes := 0
      lifetime_print_minutes := 0
      lifetime_print_centimeters := 0
      triptime_minutes := 0
      triptime_print_minutes := 0
      triptime_print_centimeters := 0 }

/-- The word writes of `save_lifetime_stats`, as (address, value), in program order. -/
def save_writes (s : State) : List (Nat × Nat) :=
  [ (LIFETIME_EEPROM_OFFSET + 0, LIFETIME_MAGIC),
    (LIFETIME_EEPROM_OFFSET + 4, s.lifetime_minutes),
    (LIFETIME_EEPROM_OFFSET + 8, s.lifetime_print_minutes),
    (LIFETIME_EEPROM_OFFSET + 12, s.lifetime_print_centimeters),
    (LIFETIME_EEPROM_OFFSET + 16, s.triptime_minutes),
    (LIFETIME_EEPROM_OFFSET + 20, s.triptime_print_minutes),
    (LIFETIME_EEPROM_OFFSET + 24, s.triptime_print_centimeters) ]

/-- Execution of a list of word writes, first to last. -/
def eeprom_write_all (e : Eeprom) (ws : List (Nat × Nat)) : Eeprom :=
  ws.foldl (fun acc w => eeprom_write_dword acc w.1 w.2) e

/-- Function `save_lifetime_stats`. -/
def save_lifetime_stats (s : State) : State :=
  { s with eeprom := eeprom_write_all s.eeprom (save_writes s) }

/-- A run of `save_lifetime_stats` that is cut off after its first `k` word writes. -/
def save_interrupted (k : Nat) (s : State) : State :=
  { s with eeprom := eeprom_write_all s.eeprom ((save_writes s).take k) }

/-! ## Entry points -/

/-- Function `lifetime_stats_init`. -/
def lifetime_stats_init (env : Env) (s : State) : State :=
  let startup_millis := env.millis
  load_lifetime_stats
    { s with
      hour_save_millis := u32 (startup_millis + MILLIS_HOUR)
      minute_counter_millis := u32 (startup_millis + MILLIS_MINUTE)
      is_printing := false
      last_e_pos := env.current_position_E }

/-- The loop `while (accumulated_e_diff > 10.0)` of `lifetime_stats_tick`,
run for at most `fuel` iterations. -/
def carry_loop : Nat → State → State
  | 0, s => s
  | fuel + 1, s =>
    if s.accumulated_e_diff > 10 then
      carry_loop fuel
        { s with
          lifetime_print_centimeters := u32 (s.lifetime_print_centimeters + 1)
          triptime_print_centimeters := u32 (s.triptime_print_centimeters + 1)
          accumulated_e_diff := s.accumulated_e_diff - 10 }
    else s

/-- Number of iterations after which the carry loop has certainly left. -/
def carry_fuel (a : ℚ) : Nat := Int.toNat (Int.ceil (a / 10))

/-- The block under `if (is_printing)` of `lifetime_stats_tick`. -/
def printing_minute (env : Env) (s : State) : State :=
  let s := { s with
    lifetime_print_minutes := u32 (s.lifetime_print_minutes + 1)
    triptime_print_minutes := u32 (s.triptime_print_minutes + 1) }
  let diff := env.current_position_E - s.last_e_pos
  let s :=
    if diff > 0 ∧ diff < 60 * 30 then
      let s := { s with
        accumulated_e_diff :=
          s.accumulated_e_diff + diff * env.volumetric_multiplier env.active_extruder }
      carry_loop (carry_fuel s.accumulated_e_diff) s
    else s
  { s with last_e_pos := env.current_position_E }

/-- The session re-evaluation `if ( movesplanned() || IS_SD_PRINTING )` of
`lifetime_stats_tick`. -/
def session_update (env : Env) (s : State) : State :=
  if env.movesplanned ≠ 0 ∨ env.IS_SD_PRINTING = true then
    { s with
      is_printing := true
      last_e_pos := env.current_position_E
      accumulated_e_diff := 0 }
  else
    let s := if s.is_printing = true then save_lifetime_stats s else s
    { s with is_printing := false }

/-- The counting step of the minute block: deadline and minute counters, then
the printing block when `is_printing` holds. -/
def minute_count (env : Env) (s : State) : State :=
  let s := { s with minute_counter_millis := u32 (s.minute_counter_millis + MILLIS_MINUTE) }
  let s := { s with
    lifetime_minutes := u32 (s.lifetime_minutes + 1)
    triptime_minutes := u32 (s.triptime_minutes + 1) }
  if s.is_printing = true then printing_minute env s else s

/-- The block under `if (minute_counter_millis < m)` of `lifetime_stats_tick`. -/
def minute_block (env : Env) (s : State) : State :=
  session_update env (minute_count env s)

/-- The minute part of `lifetime_stats_tick`, guard included. -/
def minute_part (env : Env) (s : State) : State :=
  if s.minute_counter_millis < env.millis then minute_block env s else s

/-- The hour part of `lifetime_stats_tick`, guard included. -/
def hour_part (env : Env) (s : State) : State :=
  if s.hour_save_millis < env.millis then
    save_lifetime_stats { s with hour_save_millis := u32 (env.millis + MILLIS_HOUR) }
  else s

/-- Function `lifetime_stats_tick`. -/
def lifetime_stats_tick (env : Env) (s : State) : State :=
  hour_part env (minute_part env s)

/-- Function `reset_triptime`. -/
def reset_triptime (s : State) : State :=
  { s with
    triptime_minutes := 0
    triptime_print_minutes := 0
    triptime_print_centimeters := 0 }

/-- States the firmware can be in: after `lifetime_stats_init` on the
zero-initialised variables, then any calls of `lifetime_stats_tick` and
`reset_triptime`. -/
inductive Reachable : State → Prop
  | init (env : Env) (e : Eeprom) : Reachable (lifetime_stats_init env (power_on e))
  | tick (env : Env) (s : State) : Reachable s → Reachable (lifetime_stats_tick env s)
  | reset (s : State) : Reachable s → Reachable (reset_triptime s)

/-- A run of `lifetime_stats_tick` over successive environment samples. -/
def run_ticks (envs : List Env) (s : State) : State :=
  envs.foldl (fun st env => lifetime_stats_tick env st) s

/-! ## Concrete data used to exercise the model -/

/-- An EEPROM in the erased condition: every byte reads `0xFF`. -/
def erased : Eeprom := fun _ => 0xFF

/-- Idle controller with six distinct counter values over an erased EEPROM. -/
def sample_state : State :=
  { minute_counter_millis := 60000, hour_save_millis := 3600000, last_e_pos := 0,
    accumulated_e_diff := 0, lifetime_minutes := 600, lifetime_print_minutes := 500,
    lifetime_print_centimeters := 400, triptime_minutes := 300,
    triptime_print_minutes := 200, triptime_print_centimeters := 100,
    is_printing := false, eeprom := erased }

/-- Counters of an earlier, complete save: all 1. -/
def crash_old : State :=
  { power_on erased with
    lifetime_minutes := 1, lifetime_print_minutes := 1, lifetime_print_centimeters := 1,
    triptime_minutes := 1, triptime_print_minutes := 1, triptime_print_centimeters := 1 }

/-- Counters of the save that is cut off: all 2, over the EEPROM left by the
complete save of `crash_old`. -/
def crash_new : State :=
  { power_on (save_lifetime_stats crash_old).eeprom with
    lifetime_minutes := 2, lifetime_print_minutes := 2, lifetime_print_centimeters := 2,
    triptime_minutes := 2, triptime_print_minutes := 2, triptime_print_centimeters := 2 }

/-- Environment sample at clock value `m` with an idle oracle: no pending
moves, no SD print; E position 0 and unit volumetric multiplier. -/
def idle_env (m : Nat) : Env :=
  { millis := m, current_position_E := 0, volumetric_multiplier := fun _ => 1,
    active_extruder := 0, movesplanned := 0, IS_SD_PRINTING := false }

/-- Number of minute boundaries `t0 + k * 60000` with `k ≥ 1` that clock value
`m` has passed. No such boundary has `k` above `m / 60000`. -/
def boundaries_passed (t0 m : Nat) : Nat :=
  Nat.count (fun k => 1 ≤ k ∧ t0 + k * MILLIS_MINUTE < m) (m / MILLIS_MINUTE + 1)

/-- Clock value of the last sample of a run that starts at clock value `t0`. -/
def last_millis (t0 : Nat) (envs : List Env) : Nat :=
  (envs.map Env.millis).getLastD t0

/-- The oracle reports no pending moves and no active job. -/
def Env.idle (env : Env) : Prop :=
  env.movesplanned = 0 ∧ env.IS_SD_PRINTING = false

/-- An idle run after a start at clock value 0: samples at 50, 100 and 130 seconds. -/
def sample_idle_run : List Env := [idle_env 50000, idle_env 100000, idle_env 130000]

/-- Environment sample at clock value `m` with a busy oracle (one pending move,
SD print active), E position `pos` and unit volumetric multiplier. -/
def printing_env (m : Nat) (pos : ℚ) : Env :=
  { millis := m, current_position_E := pos, volumetric_multiplier := fun _ => 1,
    active_extruder := 0, movesplanned := 1, IS_SD_PRINTING := true }

/-- Controller one minute into a print: started at clock value 0 over an erased
EEPROM, then ticked at 60001 ms with a busy oracle and the E axis at 0. -/
def printing_state : State :=
  lifetime_stats_tick (printing_env 60001 0)
    (lifetime_stats_init (idle_env 0) (power_on erased))

/-- The oracle reports pending moves or an active job. -/
def Env.busy (env : Env) : Prop :=
  env.movesplanned ≠ 0 ∨ env.IS_SD_PRINTING = true

/-- Five further minutes of the print begun in `printing_state`: the E axis
advances by 5.0 per minute, 25.0 in total, under a busy oracle. -/
def feed_session : List Env :=
  [printing_env 120001 5, printing_env 180001 10, printing_env 240001 15,
   printing_env 300001 20, printing_env 360001 25]

/-- Clock value `m` is after deadline `d` in 32-bit wraparound order:
`0 < (m - d) mod 2 ^ 32 < 2 ^ 31`. -/
def wrap_after (d m : Nat) : Prop :=
  0 < (m + 2 ^ 32 - d) % 2 ^ 32 ∧ (m + 2 ^ 32 - d) % 2 ^ 32 < 2 ^ 31

/-- Difference of two 32-bit counters modulo `2 ^ 32`. -/
def diff32 (a b : Nat) : Int := ((a : Int) - (b : Int)) % 2 ^ 32

/-- Environment sample at clock value `m` with an idle oracle, E position `pos`
and unit volumetric multiplier. -/
def coasting_env (m : Nat) (pos : ℚ) : Env :=
  { millis := m, current_position_E := pos, volumetric_multiplier := fun _ => 1,
    active_extruder := 0, movesplanned := 0, IS_SD_PRINTING := false }

/-- Controller whose six counters all stand at `2 ^ 32 - 1`. -/
def full_state : State :=
  { power_on erased with
    lifetime_minutes := 4294967295, lifetime_print_minutes := 4294967295,
    lifetime_print_centimeters := 4294967295, triptime_minutes := 4294967295,
    triptime_print_minutes := 4294967295, triptime_print_centimeters := 4294967295 }

/-- EEPROM holding a valid record of `full_state`. -/
def full_eeprom : Eeprom := (save_lifetime_stats full_state).eeprom

/-- States reachable as in `Reachable` when every tick sees a non-negative
volumetric multiplier for the active extruder. -/
inductive ReachableScaled : State → Prop
  | init (env : Env) (e : Eeprom) : ReachableScaled (lifetime_stats_init env (power_on e))
  | tick (env : Env) (s : State) :
      0 ≤ env.volumetric_multiplier env.active_extruder →
      ReachableScaled s → ReachableScaled (lifetime_stats_tick env s)
  | reset (s : State) : ReachableScaled s → ReachableScaled (reset_triptime s)

/-- The print of `printing_state` one minute later, when the E axis has advanced
by exactly 10.0 and the oracle has gone idle. -/
def coasting_state : State :=
  lifetime_stats_tick (coasting_env 120001 10) printing_state

/-- Controller started at clock value `2 ^ 32 - 30000` over an erased EEPROM. -/
def wrap_start : State :=
  lifetime_stats_init (idle_env 4294937296) (power_on erased)

/-- Three idle ticks 1 ms apart right after the start of `wrap_start`, the clock
still below `2 ^ 32`. -/
def wrap_run : List Env :=
  [idle_env 4294937297, idle_env 4294937298, idle_env 4294937299]

/-! ## EEPROM accessors -/

theorem eeprom_read_write_same (e : Eeprom) (a v : Nat) :
    eeprom_read_dword (eeprom_write_dword e a v) a = v % 2 ^ 32 := by
  simp only [eeprom_read_dword, eeprom_write_dword, eeprom_read_byte, eeprom_write_byte]
  simp
  omega

theorem eeprom_read_write_other (e : Eeprom) (a b v : Nat) (h : a + 4 ≤ b ∨ b + 4 ≤ a) :
    eeprom_read_dword (eeprom_write_dword e a v) b = eeprom_read_dword e b := by
  have h0 : b ≠ a := by omega
  have h1 : b ≠ a + 1 := by omega
  have h2 : b ≠ a + 2 := by omega
  have h3 : b ≠ a + 3 := by omega
  have h4 : b + 1 ≠ a := by omega
  have h5 : b + 1 ≠ a + 2 := by omega
  have h6 : b + 1 ≠ a + 3 := by omega
  have h7 : b + 2 ≠ a := by omega
  have h8 : b + 2 ≠ a + 1 := by omega
  have h9 : b + 2 ≠ a + 3 := by omega
  have h10 : b + 3 ≠ a := by omega
  have h11 : b + 3 ≠ a + 1 := by omega
  have h12 : b + 3 ≠ a + 2 := by omega
  simp [eeprom_read_dword, eeprom_write_dword, eeprom_read_byte, eeprom_write_byte, *]

theorem sample_state_counters32 : sample_state.Counters32 := by
  simp [State.Counters32, sample_state]

/-! ## Load and save -/

/-- C1: whatever the variables hold when `load_lifetime_stats` runs, if the
EEPROM is the one `save_lifetime_stats` left for six 32-bit counters, the load
sets the six counters to the saved values, each in its own slot. -/
theorem save_load_round_trip (s s' : State) (h : s.Counters32)
    (he : s'.eeprom = (save_lifetime_stats s).eeprom) :
    (load_lifetime_stats s').counters = s.counters := by
  simp only [State.Counters32, Nat.reducePow] at h
  obtain ⟨h1, h2, h3, h4, h5, h6⟩ := h
  simp [load_lifetime_stats, save_lifetime_stats, save_writes, eeprom_write_all,
    State.counters, LIFETIME_EEPROM_OFFSET, LIFETIME_MAGIC, eeprom_read_write_same,
    eeprom_read_write_other, Nat.mod_eq_of_lt, he, *]

theorem save_load_round_trip_witness :
    sample_state.Counters32 ∧
      (power_on (save_lifetime_stats sample_state).eeprom).counters = [0, 0, 0, 0, 0, 0] ∧
      (load_lifetime_stats (power_on (save_lifetime_stats sample_state).eeprom)).counters
        = [600, 500, 400, 300, 200, 100] :=
  ⟨sample_state_counters32, rfl,
    save_load_round_trip sample_state (power_on (save_lifetime_stats sample_state).eeprom)
      (by simp [State.Counters32, sample_state]) rfl⟩

/-- C2: when the word at `0x700` is not the magic, `load_lifetime_stats` zeroes
all six counters, whatever the other words and the previous counters, and leaves
the EEPROM as it was. -/
theorem load_without_magic (s : State)
    (h : eeprom_read_dword s.eeprom 0x700 ≠ 0x2624BA15) :
    (load_lifetime_stats s).lifetime_minutes = 0 ∧
    (load_lifetime_stats s).lifetime_print_minutes = 0 ∧
    (load_lifetime_stats s).lifetime_print_centimeters = 0 ∧
    (load_lifetime_stats s).triptime_minutes = 0 ∧
    (load_lifetime_stats s).triptime_print_minutes = 0 ∧
    (load_lifetime_stats s).triptime_print_centimeters = 0 ∧
    (load_lifetime_stats s).eeprom = s.eeprom := by
  have h' : ¬ eeprom_read_dword s.eeprom LIFETIME_EEPROM_OFFSET = LIFETIME_MAGIC := h
  simp [load_lifetime_stats, h']

theorem load_without_magic_witness :
    eeprom_read_dword sample_state.eeprom 0x700 ≠ 0x2624BA15 ∧
    (load_lifetime_stats sample_state).counters = [0, 0, 0, 0, 0, 0] ∧
    (load_lifetime_stats sample_state).eeprom = sample_state.eeprom := by
  have hm : eeprom_read_dword sample_state.eeprom 0x700 ≠ 0x2624BA15 := by decide
  obtain ⟨h1, h2, h3, h4, h5, h6, h7⟩ := load_without_magic sample_state hm
  exact ⟨hm, by simp [State.counters, h1, h2, h3, h4, h5, h6], h7⟩

/-- C3 (as stated, refuted): over the record of a complete save of six 1s, a
save of six 2s cut off after two word writes is loaded as 2,1,1,1,1,1: neither
the earlier counters, nor the new ones, nor zeros. -/
theorem save_interrupted_mixes_old_and_new :
    (load_lifetime_stats (save_interrupted 2 crash_new)).counters = [2, 1, 1, 1, 1, 1] ∧
    (load_lifetime_stats (save_interrupted 2 crash_new)).counters ≠ crash_old.counters ∧
    (load_lifetime_stats (save_interrupted 2 crash_new)).counters ≠ crash_new.counters ∧
    (load_lifetime_stats (save_interrupted 2 crash_new)).counters ≠ [0, 0, 0, 0, 0, 0] := by
  have h : (load_lifetime_stats (save_interrupted 2 crash_new)).counters
      = [2, 1, 1, 1, 1, 1] := by
    simp [load_lifetime_stats, save_interrupted, save_lifetime_stats, save_writes,
      eeprom_write_all, State.counters, LIFETIME_EEPROM_OFFSET, LIFETIME_MAGIC,
      eeprom_read_write_same, eeprom_read_write_other, crash_new, crash_old, power_on]
  rw [h]
  simp [State.counters, crash_new, crash_old, power_on]

/-- C3 (amended): a save cut off after `k` of its seven word writes, over the
record of an earlier complete save, is loaded as the new values in the first
`k - 1` counter slots and the earlier values in the remaining slots. -/
theorem save_interrupted_load (old new : State) (k : Nat)
    (ho : old.Counters32) (hn : new.Counters32)
    (he : new.eeprom = (save_lifetime_stats old).eeprom) (hk : k ≤ 7) :
    (load_lifetime_stats (save_interrupted k new)).counters
      = new.counters.take (k - 1) ++ old.counters.drop (k - 1) := by
  simp only [State.Counters32, Nat.reducePow] at ho hn
  obtain ⟨o1, o2, o3, o4, o5, o6⟩ := ho
  obtain ⟨n1, n2, n3, n4, n5, n6⟩ := hn
  interval_cases k <;>
    simp [load_lifetime_stats, save_interrupted, save_lifetime_stats, save_writes,
      eeprom_write_all, State.counters, LIFETIME_EEPROM_OFFSET, LIFETIME_MAGIC,
      eeprom_read_write_same, eeprom_read_write_other, Nat.mod_eq_of_lt, he, *]

theorem save_interrupted_load_witness :
    (load_lifetime_stats (save_interrupted 4 crash_new)).counters
      = crash_new.counters.take (4 - 1) ++ crash_old.counters.drop (4 - 1) :=
  save_interrupted_load crash_old crash_new 4
    (by simp [State.Counters32, crash_old, power_on])
    (by simp [State.Counters32, crash_new, power_on])
    rfl (by decide)

/-- C4: `reset_triptime` zeroes the three trip counters and changes nothing
else: lifetime counters, detector state, both deadlines and the EEPROM stay. -/
theorem reset_triptime_effect (s : State) :
    (reset_triptime s).triptime_minutes = 0 ∧
    (reset_triptime s).triptime_print_minutes = 0 ∧
    (reset_triptime s).triptime_print_centimeters = 0 ∧
    (reset_triptime s).lifetime_minutes = s.lifetime_minutes ∧
    (reset_triptime s).lifetime_print_minutes = s.lifetime_print_minutes ∧
    (reset_triptime s).lifetime_print_centimeters = s.lifetime_print_centimeters ∧
    (reset_triptime s).is_printing = s.is_printing ∧
    (reset_triptime s).last_e_pos = s.last_e_pos ∧
    (reset_triptime s).accumulated_e_diff = s.accumulated_e_diff ∧
    (reset_triptime s).minute_counter_millis = s.minute_counter_millis ∧
    (reset_triptime s).hour_save_millis = s.hour_save_millis ∧
    (reset_triptime s).eeprom = s.eeprom :=
  ⟨rfl, rfl, rfl, rfl, rfl, rfl, rfl, rfl, rfl, rfl, rfl, rfl⟩

/-! ## Minute counting while idle -/

theorem boundaries_passed_eq (t0 m : Nat) :
    boundaries_passed t0 m = (m - t0 - 1) / 60000 := by
  unfold boundaries_passed MILLIS_MINUTE
  rw [Nat.count_eq_card_filter_range]
  have h : Finset.filter (fun k => 1 ≤ k ∧ t0 + k * (1000 * 60) < m)
      (Finset.range (m / (1000 * 60) + 1)) = Finset.Icc 1 ((m - t0 - 1) / 60000) := by
    ext k
    simp only [Finset.mem_filter, Finset.mem_range, Finset.mem_Icc]
    constructor
    · rintro ⟨_, h1, h2⟩
      refine ⟨h1, ?_⟩
      rw [Nat.le_div_iff_mul_le (by norm_num)]
      omega
    · rintro ⟨h1, h2⟩
      rw [Nat.le_div_iff_mul_le (by norm_num)] at h2
      refine ⟨?_, h1, by omega⟩
      rw [Nat.lt_succ_iff, Nat.le_div_iff_mul_le (by norm_num)]
      omega
  rw [h, Nat.card_Icc]
  omega

/-- Effect of one tick on an idle controller under an idle oracle. -/
theorem idle_tick (env : Env) (s : State) (hs : s.is_printing = false) (he : env.idle) :
    (lifetime_stats_tick env s).is_printing = false ∧
    (lifetime_stats_tick env s).lifetime_print_minutes = s.lifetime_print_minutes ∧
    (lifetime_stats_tick env s).lifetime_print_centimeters = s.lifetime_print_centimeters ∧
    (lifetime_stats_tick env s).triptime_print_minutes = s.triptime_print_minutes ∧
    (lifetime_stats_tick env s).triptime_print_centimeters = s.triptime_print_centimeters ∧
    (lifetime_stats_tick env s).minute_counter_millis
      = (if s.minute_counter_millis < env.millis
          then u32 (s.minute_counter_millis + 60000) else s.minute_counter_millis) ∧
    (lifetime_stats_tick env s).lifetime_minutes
      = (if s.minute_counter_millis < env.millis
          then u32 (s.lifetime_minutes + 1) else s.lifetime_minutes) ∧
    (lifetime_stats_tick env s).triptime_minutes
      = (if s.minute_counter_millis < env.millis
          then u32 (s.triptime_minutes + 1) else s.triptime_minutes) := by
  obtain ⟨he1, he2⟩ := he
  by_cases hm : s.minute_counter_millis < env.millis <;>
  by_cases hh : s.hour_save_millis < env.millis <;>
    simp [lifetime_stats_tick, hour_part, minute_part, minute_block, minute_count,
      session_update, save_lifetime_stats, MILLIS_MINUTE, hs, he1, he2, hm, hh]

/-- Invariant of an idle run: after `c` firings the minute deadline stands at
`t0 + 60000 * (c + 1)`, and `c` is the number of boundaries the clock `p` passed. -/
theorem idle_run_aux (t0 L T : Nat) :
    ∀ (envs : List Env) (p c : Nat) (s : State),
      s.is_printing = false →
      s.minute_counter_millis = t0 + 60000 * (c + 1) →
      t0 ≤ p → p ≤ s.minute_counter_millis → (c = 0 ∨ t0 + 60000 * c < p) →
      s.lifetime_minutes = u32 (L + c) → s.triptime_minutes = u32 (T + c) →
      (∀ e ∈ envs, e.idle ∧ e.millis + 60000 < 2 ^ 32) →
      List.Chain (fun a b => a ≤ b ∧ b ≤ a + 60000) p (envs.map Env.millis) →
      (run_ticks envs s).lifetime_minutes
          = u32 (L + boundaries_passed t0 (last_millis p envs)) ∧
      (run_ticks envs s).triptime_minutes
          = u32 (T + boundaries_passed t0 (last_millis p envs)) ∧
      (run_ticks envs s).lifetime_print_minutes = s.lifetime_print_minutes ∧
      (run_ticks envs s).lifetime_print_centimeters = s.lifetime_print_centimeters ∧
      (run_ticks envs s).triptime_print_minutes = s.triptime_print_minutes ∧
      (run_ticks envs s).triptime_print_centimeters = s.triptime_print_centimeters := by
  intro envs
  induction envs with
  | nil =>
    intro p c s _ hd ht hp hc hl htr _ _
    have hb : boundaries_passed t0 p = c := by
      rw [boundaries_passed_eq]
      omega
    simp [run_ticks, last_millis, hb, hl, htr]
  | cons e es ih =>
    intro p c s hs hd ht hp hc hl htr hall hch
    have he := hall e (List.mem_cons_self e es)
    obtain ⟨hidle, hbound⟩ := he
    simp only [List.map_cons, List.chain_cons] at hch
    obtain ⟨⟨hpe, hep⟩, hrest⟩ := hch
    obtain ⟨k1, k2, k3, k4, k5, k6, k7, k8⟩ := idle_tick e s hs hidle
    have hall' : ∀ x ∈ es, x.idle ∧ x.millis + 60000 < 2 ^ 32 :=
      fun x hx => hall x (List.mem_cons_of_mem e hx)
    have hrun : run_ticks (e :: es) s = run_ticks es (lifetime_stats_tick e s) := rfl
    have hlast : last_millis p (e :: es) = last_millis e.millis es := by
      simp only [last_millis, List.map_cons, List.getLastD_cons]
    rw [hrun, hlast]
    by_cases hfire : s.minute_counter_millis < e.millis
    · rw [if_pos hfire] at k6 k7 k8
      have hd' : (lifetime_stats_tick e s).minute_counter_millis
          = t0 + 60000 * (c + 1 + 1) := by
        rw [k6]; unfold u32; omega
      have hl' : (lifetime_stats_tick e s).lifetime_minutes = u32 (L + (c + 1)) := by
        rw [k7, hl]; unfold u32; omega
      have ht' : (lifetime_stats_tick e s).triptime_minutes = u32 (T + (c + 1)) := by
        rw [k8, htr]; unfold u32; omega
      have := ih e.millis (c + 1) (lifetime_stats_tick e s) k1 hd' (by omega) (by omega)
        (by omega) hl' ht' hall' hrest
      rw [k2, k3, k4, k5] at this
      exact this
    · rw [if_neg hfire] at k6 k7 k8
      have := ih e.millis c (lifetime_stats_tick e s) k1 (by rw [k6, hd]) (by omega)
        (by omega) (by omega) (by rw [k7, hl]) (by rw [k8, htr]) hall' hrest
      rw [k2, k3, k4, k5] at this
      exact this

theorem eeprom_read_dword_lt (e : Eeprom) (a : Nat) : eeprom_read_dword e a < 2 ^ 32 := by
  simp only [eeprom_read_dword, eeprom_read_byte]
  omega

theorem load_counters32 (s : State) : (load_lifetime_stats s).Counters32 := by
  simp only [load_lifetime_stats, State.Counters32]
  split_ifs
  · exact ⟨eeprom_read_dword_lt _ _, eeprom_read_dword_lt _ _, eeprom_read_dword_lt _ _,
      eeprom_read_dword_lt _ _, eeprom_read_dword_lt _ _, eeprom_read_dword_lt _ _⟩
  · simp

theorem init_fields (env : Env) (s : State) :
    (lifetime_stats_init env s).is_printing = false ∧
    (lifetime_stats_init env s).minute_counter_millis = u32 (env.millis + 60000) ∧
    (lifetime_stats_init env s).hour_save_millis = u32 (env.millis + 3600000) ∧
    (lifetime_stats_init env s).last_e_pos = env.current_position_E ∧
    (lifetime_stats_init env s).accumulated_e_diff = s.accumulated_e_diff ∧
    (lifetime_stats_init env s).eeprom = s.eeprom := by
  simp only [lifetime_stats_init, load_lifetime_stats]
  split_ifs <;> simp [MILLIS_MINUTE, MILLIS_HOUR]

/-- C5 (as stated, refuted): after a start at clock value 0 a single idle tick at
clock value 200000 adds one to `lifetime_minutes`, although the clock has passed
the three boundaries 60000, 120000 and 180000. -/
theorem late_tick_counts_one_minute :
    (idle_env 200000).idle ∧
    (lifetime_stats_init (idle_env 0) (power_on erased)).lifetime_minutes = 0 ∧
    (run_ticks [idle_env 200000]
      (lifetime_stats_init (idle_env 0) (power_on erased))).lifetime_minutes = 1 ∧
    boundaries_passed 0 (last_millis 0 [idle_env 200000]) = 3 := by
  refine ⟨⟨rfl, rfl⟩, by decide, by decide, ?_⟩
  rw [boundaries_passed_eq]
  decide

/-- A minute deadline that overflowed at start-up fires before any boundary is
reached: started at `2 ^ 32 - 30000` the deadline is 30000, and a tick one
millisecond later, with the clock not yet wrapped, counts a minute. -/
theorem wrapped_deadline_counts_early :
    (lifetime_stats_init (idle_env 4294937296) (power_on erased)).minute_counter_millis
      = 30000 ∧
    (lifetime_stats_init (idle_env 4294937296) (power_on erased)).lifetime_minutes = 0 ∧
    (run_ticks [idle_env 4294937297]
      (lifetime_stats_init (idle_env 4294937296) (power_on erased))).lifetime_minutes = 1 ∧
    boundaries_passed 4294937296 (last_millis 4294937296 [idle_env 4294937297]) = 0 := by
  refine ⟨by decide, by decide, by decide, ?_⟩
  rw [boundaries_passed_eq]
  decide

/-- C5 (amended): after `lifetime_stats_init` at clock value `t0`, over ticks
with an idle oracle at non-decreasing clock values, each at most one minute
after the previous one (the first at most one minute after `t0`) and all below
`2 ^ 32 - 60000`, the four print counters keep their values and
`lifetime_minutes` and `triptime_minutes` each grow by the number of minute
boundaries `t0 + k * 60000`, `k ≥ 1`, that the clock has passed at the last tick. -/
theorem idle_ticks_count_minutes (env0 : Env) (pre : State) (envs : List Env)
    (hidle : ∀ e ∈ envs, e.idle)
    (hclock : List.Chain (fun a b => a ≤ b ∧ b ≤ a + 60000) env0.millis
      (envs.map Env.millis))
    (hwrap0 : env0.millis + 60000 < 2 ^ 32)
    (hwrap : ∀ e ∈ envs, e.millis + 60000 < 2 ^ 32) :
    (run_ticks envs (lifetime_stats_init env0 pre)).lifetime_minutes
      = u32 ((lifetime_stats_init env0 pre).lifetime_minutes
          + boundaries_passed env0.millis (last_millis env0.millis envs)) ∧
    (run_ticks envs (lifetime_stats_init env0 pre)).triptime_minutes
      = u32 ((lifetime_stats_init env0 pre).triptime_minutes
          + boundaries_passed env0.millis (last_millis env0.millis envs)) ∧
    (run_ticks envs (lifetime_stats_init env0 pre)).lifetime_print_minutes
      = (lifetime_stats_init env0 pre).lifetime_print_minutes ∧
    (run_ticks envs (lifetime_stats_init env0 pre)).lifetime_print_centimeters
      = (lifetime_stats_init env0 pre).lifetime_print_centimeters ∧
    (run_ticks envs (lifetime_stats_init env0 pre)).triptime_print_minutes
      = (lifetime_stats_init env0 pre).triptime_print_minutes ∧
    (run_ticks envs (lifetime_stats_init env0 pre)).triptime_print_centimeters
      = (lifetime_stats_init env0 pre).triptime_print_centimeters := by
  obtain ⟨i1, i2, -, -, -, -⟩ := init_fields env0 pre
  have hc : (lifetime_stats_init env0 pre).Counters32 := load_counters32 _
  simp only [State.Counters32] at hc
  obtain ⟨c1, -, -, c4, -, -⟩ := hc
  have hd : (lifetime_stats_init env0 pre).minute_counter_millis
      = env0.millis + 60000 * (0 + 1) := by
    rw [i2]; unfold u32; omega
  exact idle_run_aux env0.millis _ _ envs env0.millis 0 _ i1 hd (le_refl _) (by omega)
    (Or.inl rfl) (by unfold u32; omega) (by unfold u32; omega)
    (fun e he => ⟨hidle e he, hwrap e he⟩) hclock

theorem idle_ticks_count_minutes_witness :
    boundaries_passed 0 (last_millis 0 sample_idle_run) = 2 ∧
    (run_ticks sample_idle_run (lifetime_stats_init (idle_env 0) sample_state)).lifetime_minutes
      = u32 ((lifetime_stats_init (idle_env 0) sample_state).lifetime_minutes
          + boundaries_passed 0 (last_millis 0 sample_idle_run)) := by
  refine ⟨?_, (idle_ticks_count_minutes (idle_env 0) sample_state sample_idle_run
    (by simp [sample_idle_run, idle_env, Env.idle])
    (by simp [sample_idle_run, idle_env])
    (by simp [idle_env])
    (by simp [sample_idle_run, idle_env])).1⟩
  rw [boundaries_passed_eq]
  decide


/-! ## The carry loop -/

/-- The carry loop touches only the accumulator and the two length counters. -/
theorem carry_loop_frame (n : Nat) : ∀ s : State,
    (carry_loop n s).minute_counter_millis = s.minute_counter_millis ∧
    (carry_loop n s).hour_save_millis = s.hour_save_millis ∧
    (carry_loop n s).last_e_pos = s.last_e_pos ∧
    (carry_loop n s).lifetime_minutes = s.lifetime_minutes ∧
    (carry_loop n s).lifetime_print_minutes = s.lifetime_print_minutes ∧
    (carry_loop n s).triptime_minutes = s.triptime_minutes ∧
    (carry_loop n s).triptime_print_minutes = s.triptime_print_minutes ∧
    (carry_loop n s).is_printing = s.is_printing ∧
    (carry_loop n s).eeprom = s.eeprom := by
  induction n with
  | zero => intro s; simp [carry_loop]
  | succ n ih =>
    intro s
    simp only [carry_loop]
    split_ifs
    · simpa using ih _
    · simp

/-- With the accumulator at most 10 the loop body is not entered. -/
theorem carry_loop_of_le (n : Nat) (s : State) (h : s.accumulated_e_diff ≤ 10) :
    carry_loop n s = s := by
  cases n with
  | zero => rfl
  | succ n => simp [carry_loop, not_lt.mpr h]

/-- With enough fuel the loop is left through its exit test. -/
theorem carry_loop_exit (n : Nat) : ∀ s : State,
    s.accumulated_e_diff ≤ 10 * (n + 1) → (carry_loop n s).accumulated_e_diff ≤ 10 := by
  induction n with
  | zero => intro s h; simpa [carry_loop] using h
  | succ n ih =>
    intro s h
    simp only [carry_loop]
    split_ifs with hc
    · apply ih
      push_cast at h ⊢
      linarith
    · exact not_lt.mp hc

/-- The fuel computed from the accumulator is enough. -/
theorem carry_fuel_enough (s : State) :
    (carry_loop (carry_fuel s.accumulated_e_diff) s).accumulated_e_diff ≤ 10 := by
  apply carry_loop_exit
  have h1 : s.accumulated_e_diff / 10 ≤ (Int.ceil (s.accumulated_e_diff / 10) : ℚ) :=
    Int.le_ceil _
  have h2 : (Int.ceil (s.accumulated_e_diff / 10) : ℚ)
      ≤ ((Int.toNat (Int.ceil (s.accumulated_e_diff / 10)) : ℕ) : ℚ) := by
    have := Int.self_le_toNat (Int.ceil (s.accumulated_e_diff / 10))
    exact_mod_cast this
  unfold carry_fuel
  linarith

/-- Fuel beyond the exit point does not change the result. -/
theorem carry_loop_fuel_irrelevant (n : Nat) : ∀ (m : Nat) (s : State),
    s.accumulated_e_diff ≤ 10 * (n + 1) → n ≤ m → carry_loop m s = carry_loop n s := by
  induction n with
  | zero =>
    intro m s h _
    have h' : s.accumulated_e_diff ≤ 10 := by simpa using h
    rw [carry_loop_of_le m s h', carry_loop_of_le 0 s h']
  | succ n ih =>
    intro m s h hm
    obtain ⟨m', rfl⟩ : ∃ m', m = m' + 1 := ⟨m - 1, by omega⟩
    simp only [carry_loop]
    split_ifs with hc
    · apply ih
      · push_cast at h ⊢
        linarith
      · omega
    · rfl

theorem carry_loop_counters32 (n : Nat) : ∀ s : State,
    s.Counters32 → (carry_loop n s).Counters32 := by
  induction n with
  | zero => intro s h; simpa [carry_loop] using h
  | succ n ih =>
    intro s h
    simp only [carry_loop]
    split_ifs
    · apply ih
      obtain ⟨h1, h2, h3, h4, h5, h6⟩ := h
      refine ⟨h1, h2, ?_, h4, h5, ?_⟩ <;> exact Nat.mod_lt _ (by norm_num)
    · exact h

/-! ## One tick -/

/-- The printing block leaves deadlines, minute counters, flag and EEPROM alone
and re-anchors `last_e_pos`. -/
theorem printing_minute_frame (env : Env) (s : State) :
    (printing_minute env s).minute_counter_millis = s.minute_counter_millis ∧
    (printing_minute env s).hour_save_millis = s.hour_save_millis ∧
    (printing_minute env s).lifetime_minutes = s.lifetime_minutes ∧
    (printing_minute env s).triptime_minutes = s.triptime_minutes ∧
    (printing_minute env s).lifetime_print_minutes = u32 (s.lifetime_print_minutes + 1) ∧
    (printing_minute env s).triptime_print_minutes = u32 (s.triptime_print_minutes + 1) ∧
    (printing_minute env s).is_printing = s.is_printing ∧
    (printing_minute env s).eeprom = s.eeprom ∧
    (printing_minute env s).last_e_pos = env.current_position_E := by
  simp only [printing_minute]
  split_ifs
  · obtain ⟨h1, h2, h3, h4, h5, h6, h7, h8, h9⟩ := carry_loop_frame
      (carry_fuel (s.accumulated_e_diff + (env.current_position_E - s.last_e_pos)
        * env.volumetric_multiplier env.active_extruder))
      { s with
        lifetime_print_minutes := u32 (s.lifetime_print_minutes + 1)
        triptime_print_minutes := u32 (s.triptime_print_minutes + 1)
        accumulated_e_diff := s.accumulated_e_diff
          + (env.current_position_E - s.last_e_pos)
            * env.volumetric_multiplier env.active_extruder }
    simp [h1, h2, h4, h5, h6, h7, h8, h9]
  · simp

/-- A rejected delta leaves the accumulator and both length counters alone. -/
theorem printing_minute_rejected (env : Env) (s : State)
    (h : ¬ (env.current_position_E - s.last_e_pos > 0
      ∧ env.current_position_E - s.last_e_pos < 60 * 30)) :
    (printing_minute env s).accumulated_e_diff = s.accumulated_e_diff ∧
    (printing_minute env s).lifetime_print_centimeters = s.lifetime_print_centimeters ∧
    (printing_minute env s).triptime_print_centimeters = s.triptime_print_centimeters := by
  simp only [printing_minute]
  rw [if_neg h]
  simp

/-- The hour part changes only the hour deadline and the EEPROM. -/
theorem hour_part_frame (env : Env) (s : State) :
    (hour_part env s).minute_counter_millis = s.minute_counter_millis ∧
    (hour_part env s).last_e_pos = s.last_e_pos ∧
    (hour_part env s).accumulated_e_diff = s.accumulated_e_diff ∧
    (hour_part env s).lifetime_minutes = s.lifetime_minutes ∧
    (hour_part env s).lifetime_print_minutes = s.lifetime_print_minutes ∧
    (hour_part env s).lifetime_print_centimeters = s.lifetime_print_centimeters ∧
    (hour_part env s).triptime_minutes = s.triptime_minutes ∧
    (hour_part env s).triptime_print_minutes = s.triptime_print_minutes ∧
    (hour_part env s).triptime_print_centimeters = s.triptime_print_centimeters ∧
    (hour_part env s).is_printing = s.is_printing := by
  by_cases h : s.hour_save_millis < env.millis
  · simp only [hour_part, if_pos h, save_lifetime_stats, and_self]
  · simp only [hour_part, if_neg h, and_self]

/-- While the session flag is set the accumulator is 0: the flag is only ever
set together with a reset of the accumulator. -/
theorem reachable_printing_accumulator (s : State) (h : Reachable s) :
    s.is_printing = true → s.accumulated_e_diff = 0 := by
  induction h with
  | init env e =>
    intro hp
    have := (init_fields env (power_on e)).1
    rw [this] at hp
    exact absurd hp (by decide)
  | tick env s _ ih =>
    obtain ⟨-, -, ha, -, -, -, -, -, -, hp⟩ := hour_part_frame env (minute_part env s)
    unfold lifetime_stats_tick
    rw [ha, hp]
    unfold minute_part
    split_ifs with hfire
    · unfold minute_block
      by_cases hb : env.movesplanned ≠ 0 ∨ env.IS_SD_PRINTING = true
      · intro _
        simp only [session_update, if_pos hb]
      · intro hp
        simp only [session_update, if_neg hb] at hp
        exact absurd hp Bool.false_ne_true
    · exact ih
  | reset s _ ih => exact ih


/-- The session re-evaluation leaves deadlines and all six counters alone. -/
theorem session_update_frame (env : Env) (s : State) :
    (session_update env s).minute_counter_millis = s.minute_counter_millis ∧
    (session_update env s).hour_save_millis = s.hour_save_millis ∧
    (session_update env s).lifetime_minutes = s.lifetime_minutes ∧
    (session_update env s).lifetime_print_minutes = s.lifetime_print_minutes ∧
    (session_update env s).lifetime_print_centimeters = s.lifetime_print_centimeters ∧
    (session_update env s).triptime_minutes = s.triptime_minutes ∧
    (session_update env s).triptime_print_minutes = s.triptime_print_minutes ∧
    (session_update env s).triptime_print_centimeters = s.triptime_print_centimeters := by
  by_cases hb : env.movesplanned ≠ 0 ∨ env.IS_SD_PRINTING = true
  · simp only [session_update, if_pos hb, and_self]
  · by_cases hp : s.is_printing = true
    · simp only [session_update, if_neg hb, if_pos hp, save_lifetime_stats, and_self]
    · simp only [session_update, if_neg hb, if_neg hp, and_self]

/-- Deadline and minute counters after the counting step. -/
theorem minute_count_fields (env : Env) (s : State) :
    (minute_count env s).minute_counter_millis = u32 (s.minute_counter_millis + 60000) ∧
    (minute_count env s).hour_save_millis = s.hour_save_millis ∧
    (minute_count env s).lifetime_minutes = u32 (s.lifetime_minutes + 1) ∧
    (minute_count env s).triptime_minutes = u32 (s.triptime_minutes + 1) ∧
    (minute_count env s).is_printing = s.is_printing ∧
    (minute_count env s).eeprom = s.eeprom := by
  by_cases hp : s.is_printing = true
  · simp only [minute_count, if_pos hp]
    obtain ⟨h1, h2, h3, h4, -, -, h7, h8, -⟩ := printing_minute_frame env
      { s with
        minute_counter_millis := u32 (s.minute_counter_millis + MILLIS_MINUTE)
        lifetime_minutes := u32 (s.lifetime_minutes + 1)
        triptime_minutes := u32 (s.triptime_minutes + 1) }
    exact ⟨h1, h2, h3, h4, h7, h8⟩
  · simp only [minute_count, if_neg hp, MILLIS_MINUTE, and_self]

/-- The minute deadline after a tick. -/
theorem tick_minute_counter_millis (env : Env) (s : State) :
    (lifetime_stats_tick env s).minute_counter_millis
      = if s.minute_counter_millis < env.millis
        then (s.minute_counter_millis + 60000) % 2 ^ 32
        else s.minute_counter_millis := by
  unfold lifetime_stats_tick
  rw [(hour_part_frame env (minute_part env s)).1]
  by_cases hfire : s.minute_counter_millis < env.millis
  · rw [if_pos hfire]
    simp only [minute_part, if_pos hfire, minute_block]
    rw [(session_update_frame env (minute_count env s)).1, (minute_count_fields env s).1]
    rfl
  · rw [if_neg hfire]
    simp only [minute_part, if_neg hfire]

/-- C10: a tick whose minute deadline fires moves that deadline to the old
deadline plus 60000 modulo `2 ^ 32`, whatever the clock value; a tick whose
minute deadline does not fire leaves it unchanged. -/
theorem minute_deadline_step (env : Env) (s : State) :
    (lifetime_stats_tick env s).minute_counter_millis
      = if s.minute_counter_millis < env.millis
        then (s.minute_counter_millis + 60000) % 2 ^ 32
        else s.minute_counter_millis :=
  tick_minute_counter_millis env s

/-- C8: on an idle controller, a tick whose minute deadline fires under a busy
oracle sets `is_printing`, zeroes the accumulator whatever it held, anchors
`last_e_pos` at the current E position and leaves the four print counters alone. -/
theorem idle_to_active (env : Env) (s : State) (hs : s.is_printing = false)
    (hfire : s.minute_counter_millis < env.millis)
    (hb : env.movesplanned ≠ 0 ∨ env.IS_SD_PRINTING = true) :
    (lifetime_stats_tick env s).is_printing = true ∧
    (lifetime_stats_tick env s).accumulated_e_diff = 0 ∧
    (lifetime_stats_tick env s).last_e_pos = env.current_position_E ∧
    (lifetime_stats_tick env s).lifetime_print_minutes = s.lifetime_print_minutes ∧
    (lifetime_stats_tick env s).lifetime_print_centimeters = s.lifetime_print_centimeters ∧
    (lifetime_stats_tick env s).triptime_print_minutes = s.triptime_print_minutes ∧
    (lifetime_stats_tick env s).triptime_print_centimeters
      = s.triptime_print_centimeters := by
  obtain ⟨-, h2, h3, -, h5, h6, -, h8, h9, h10⟩ := hour_part_frame env (minute_part env s)
  unfold lifetime_stats_tick
  rw [h2, h3, h5, h6, h8, h9, h10]
  have hs' : ¬ s.is_printing = true := by simp [hs]
  simp only [minute_part, if_pos hfire, minute_block, session_update, if_pos hb, minute_count,
    if_neg hs', and_self]


theorem idle_to_active_witness :
    (lifetime_stats_tick (printing_env 60001 7)
      { sample_state with accumulated_e_diff := 7 / 2 }).is_printing = true ∧
    (lifetime_stats_tick (printing_env 60001 7)
      { sample_state with accumulated_e_diff := 7 / 2 }).accumulated_e_diff = 0 ∧
    (lifetime_stats_tick (printing_env 60001 7)
      { sample_state with accumulated_e_diff := 7 / 2 }).last_e_pos = 7 ∧
    (lifetime_stats_tick (printing_env 60001 7)
      { sample_state with accumulated_e_diff := 7 / 2 }).lifetime_print_minutes = 500 ∧
    (lifetime_stats_tick (printing_env 60001 7)
      { sample_state with accumulated_e_diff := 7 / 2 }).lifetime_print_centimeters = 400 ∧
    (lifetime_stats_tick (printing_env 60001 7)
      { sample_state with accumulated_e_diff := 7 / 2 }).triptime_print_minutes = 200 ∧
    (lifetime_stats_tick (printing_env 60001 7)
      { sample_state with accumulated_e_diff := 7 / 2 }).triptime_print_centimeters = 100 :=
  idle_to_active (printing_env 60001 7) { sample_state with accumulated_e_diff := 7 / 2 }
    rfl (by decide) (Or.inl (by decide))

/-- The counting step keeps the counters within 32 bits. -/
theorem minute_count_counters32 (env : Env) (s : State) (h : s.Counters32) :
    (minute_count env s).Counters32 := by
  have hu : ∀ x, u32 x < 2 ^ 32 := fun x => Nat.mod_lt _ (by norm_num)
  obtain ⟨h1, h2, h3, h4, h5, h6⟩ := h
  by_cases hp : s.is_printing = true
  · simp only [minute_count, if_pos hp, printing_minute]
    split_ifs
    · apply carry_loop_counters32
      exact ⟨hu _, hu _, h3, hu _, hu _, h6⟩
    · exact ⟨hu _, hu _, h3, hu _, hu _, h6⟩
  · simp only [minute_count, if_neg hp]
    exact ⟨hu _, h2, h3, hu _, h5, h6⟩

/-- Words of the record once the seven writes of a save of 32-bit counters
have been carried out, over any previous content. -/
theorem writes_reads (e : Eeprom) (s : State) (h : s.Counters32) :
    eeprom_read_dword (eeprom_write_all e (save_writes s)) 0x700 = 0x2624BA15 ∧
    eeprom_read_dword (eeprom_write_all e (save_writes s)) 0x704 = s.lifetime_minutes ∧
    eeprom_read_dword (eeprom_write_all e (save_writes s)) 0x708 = s.lifetime_print_minutes ∧
    eeprom_read_dword (eeprom_write_all e (save_writes s)) 0x70C
      = s.lifetime_print_centimeters ∧
    eeprom_read_dword (eeprom_write_all e (save_writes s)) 0x710 = s.triptime_minutes ∧
    eeprom_read_dword (eeprom_write_all e (save_writes s)) 0x714 = s.triptime_print_minutes ∧
    eeprom_read_dword (eeprom_write_all e (save_writes s)) 0x718
      = s.triptime_print_centimeters := by
  simp only [State.Counters32, Nat.reducePow] at h
  obtain ⟨h1, h2, h3, h4, h5, h6⟩ := h
  simp [save_writes, eeprom_write_all, LIFETIME_EEPROM_OFFSET,
    LIFETIME_MAGIC, eeprom_read_write_same, eeprom_read_write_other, Nat.mod_eq_of_lt, *]

/-- The EEPROM after the hour part: rewritten with the current counters when the
hour deadline fires, untouched otherwise. -/
theorem hour_part_eeprom (env : Env) (s : State) :
    (hour_part env s).eeprom
      = if s.hour_save_millis < env.millis
        then eeprom_write_all s.eeprom (save_writes s) else s.eeprom := by
  by_cases h : s.hour_save_millis < env.millis
  · simp only [hour_part, if_pos h, save_lifetime_stats, save_writes]
  · simp only [hour_part, if_neg h]

/-- A tick whose minute deadline fires under a busy oracle ends with the flag
set, the accumulator at 0 and `last_e_pos` at the current E position. -/
theorem busy_tick (env : Env) (s : State) (hfire : s.minute_counter_millis < env.millis)
    (hb : env.movesplanned ≠ 0 ∨ env.IS_SD_PRINTING = true) :
    (lifetime_stats_tick env s).is_printing = true ∧
    (lifetime_stats_tick env s).accumulated_e_diff = 0 ∧
    (lifetime_stats_tick env s).last_e_pos = env.current_position_E ∧
    (lifetime_stats_tick env s).lifetime_print_centimeters
      = (minute_count env s).lifetime_print_centimeters ∧
    (lifetime_stats_tick env s).triptime_print_centimeters
      = (minute_count env s).triptime_print_centimeters := by
  obtain ⟨-, h2, h3, -, -, h6, -, -, h9, h10⟩ := hour_part_frame env (minute_part env s)
  unfold lifetime_stats_tick
  rw [h2, h3, h6, h9, h10]
  simp only [minute_part, if_pos hfire, minute_block, session_update, if_pos hb, and_self]

/-- In a printing minute whose accepted, scaled delta brings the accumulator to
at most 10, the length counters stay and the accumulator holds the sum. -/
theorem minute_count_small_delta (env : Env) (s : State) (hp : s.is_printing = true)
    (hd0 : env.current_position_E - s.last_e_pos > 0)
    (hd1 : env.current_position_E - s.last_e_pos < 60 * 30)
    (hsmall : s.accumulated_e_diff + (env.current_position_E - s.last_e_pos)
      * env.volumetric_multiplier env.active_extruder ≤ 10) :
    (minute_count env s).lifetime_print_centimeters = s.lifetime_print_centimeters ∧
    (minute_count env s).triptime_print_centimeters = s.triptime_print_centimeters ∧
    (minute_count env s).accumulated_e_diff
      = s.accumulated_e_diff + (env.current_position_E - s.last_e_pos)
        * env.volumetric_multiplier env.active_extruder := by
  have hacc : (env.current_position_E - s.last_e_pos > 0
      ∧ env.current_position_E - s.last_e_pos < 60 * 30) := ⟨hd0, hd1⟩
  simp only [minute_count, if_pos hp, printing_minute, if_pos hacc]
  rw [carry_loop_of_le _ _ hsmall]
  exact ⟨rfl, rfl, rfl⟩

/-- One minute of `feed_session`: a feed of at most 10 units on top of an empty
accumulator is dropped when the busy oracle re-arms the session. -/
theorem feed_step (s : State) (m : Nat) (p : ℚ) (hp : s.is_printing = true)
    (ha : s.accumulated_e_diff = 0) (hfire : s.minute_counter_millis < m)
    (hd0 : 0 < p - s.last_e_pos) (hd1 : p - s.last_e_pos ≤ 10) :
    (lifetime_stats_tick (printing_env m p) s).is_printing = true ∧
    (lifetime_stats_tick (printing_env m p) s).accumulated_e_diff = 0 ∧
    (lifetime_stats_tick (printing_env m p) s).last_e_pos = p ∧
    (lifetime_stats_tick (printing_env m p) s).minute_counter_millis
      = (s.minute_counter_millis + 60000) % 2 ^ 32 ∧
    (lifetime_stats_tick (printing_env m p) s).lifetime_print_centimeters
      = s.lifetime_print_centimeters ∧
    (lifetime_stats_tick (printing_env m p) s).triptime_print_centimeters
      = s.triptime_print_centimeters := by
  have hb : (printing_env m p).movesplanned ≠ 0 ∨ (printing_env m p).IS_SD_PRINTING = true :=
    Or.inr rfl
  have hfire' : s.minute_counter_millis < (printing_env m p).millis := hfire
  obtain ⟨b1, b2, b3, b4, b5⟩ := busy_tick (printing_env m p) s hfire' hb
  have hd0' : (printing_env m p).current_position_E - s.last_e_pos > 0 := hd0
  have hd1' : (printing_env m p).current_position_E - s.last_e_pos < 60 * 30 := by
    show p - s.last_e_pos < 60 * 30
    linarith
  have hsmall : s.accumulated_e_diff + ((printing_env m p).current_position_E - s.last_e_pos)
      * (printing_env m p).volumetric_multiplier (printing_env m p).active_extruder ≤ 10 := by
    show s.accumulated_e_diff + (p - s.last_e_pos) * 1 ≤ 10
    rw [ha]
    linarith
  obtain ⟨c1, c2, -⟩ := minute_count_small_delta (printing_env m p) s hp hd0' hd1' hsmall
  have hm := tick_minute_counter_millis (printing_env m p) s
  rw [if_pos hfire'] at hm
  exact ⟨b1, b2, b3, hm, b4.trans c1, b5.trans c2⟩


theorem printing_state_fields :
    printing_state.is_printing = true ∧ printing_state.accumulated_e_diff = 0 ∧
    printing_state.last_e_pos = 0 ∧ printing_state.minute_counter_millis = 120000 ∧
    printing_state.lifetime_print_centimeters = 0 ∧
    printing_state.triptime_print_centimeters = 0 := by
  obtain ⟨b1, b2, b3, -, -⟩ := busy_tick (printing_env 60001 0)
    (lifetime_stats_init (idle_env 0) (power_on erased)) (by decide) (Or.inr rfl)
  exact ⟨b1, b2, b3, by decide, by decide, by decide⟩

/-- C6 (the code at a failing input): in the print begun in `printing_state`,
five minute ticks each see an accepted delta of 5.0 at scale 1, 25.0 in total;
the length counters stay at 0 and the accumulator ends at 0, where the claim
requires two increments and a remainder of 5.0. -/
theorem feed_session_drops_remainders :
    printing_state.lifetime_print_centimeters = 0 ∧
    printing_state.triptime_print_centimeters = 0 ∧
    (run_ticks feed_session printing_state).is_printing = true ∧
    (run_ticks feed_session printing_state).last_e_pos = 25 ∧
    (run_ticks feed_session printing_state).lifetime_print_centimeters = 0 ∧
    (run_ticks feed_session printing_state).triptime_print_centimeters = 0 ∧
    (run_ticks feed_session printing_state).accumulated_e_diff = 0 := by
  obtain ⟨p0, a0, l0, m0, c0, t0⟩ := printing_state_fields
  obtain ⟨p1, a1, l1, m1, c1, t1⟩ := feed_step printing_state 120001 5 p0 a0
    (by rw [m0]; decide) (by rw [l0]; norm_num) (by rw [l0]; norm_num)
  rw [m0] at m1
  obtain ⟨p2, a2, l2, m2, c2, t2⟩ := feed_step _ 180001 10 p1 a1
    (by rw [m1]; decide) (by rw [l1]; norm_num) (by rw [l1]; norm_num)
  rw [m1] at m2
  obtain ⟨p3, a3, l3, m3, c3, t3⟩ := feed_step _ 240001 15 p2 a2
    (by rw [m2]; decide) (by rw [l2]; norm_num) (by rw [l2]; norm_num)
  rw [m2] at m3
  obtain ⟨p4, a4, l4, m4, c4, t4⟩ := feed_step _ 300001 20 p3 a3
    (by rw [m3]; decide) (by rw [l3]; norm_num) (by rw [l3]; norm_num)
  rw [m3] at m4
  obtain ⟨p5, a5, l5, -, c5, t5⟩ := feed_step _ 360001 25 p4 a4
    (by rw [m4]; decide) (by rw [l4]; norm_num) (by rw [l4]; norm_num)
  refine ⟨c0, t0, p5, l5, ?_, ?_, a5⟩
  · exact c5.trans (c4.trans (c3.trans (c2.trans (c1.trans c0))))
  · exact t5.trans (t4.trans (t3.trans (t2.trans (t1.trans t0))))


theorem printing_state_reachable : Reachable printing_state :=
  Reachable.tick _ _ (Reachable.init _ _)

/-- C7: in a reachable state with `is_printing` set, a minute tick whose delta
`current E position - last_e_pos` is zero, negative or at least 1800 leaves the
accumulator and both length counters at their values from before the tick and
sets `last_e_pos` to the sampled E position. -/
theorem rejected_delta (env : Env) (s : State) (hr : Reachable s)
    (hp : s.is_printing = true) (hfire : s.minute_counter_millis < env.millis)
    (hd : env.current_position_E - s.last_e_pos = 0
      ∨ env.current_position_E - s.last_e_pos < 0
      ∨ 1800 ≤ env.current_position_E - s.last_e_pos) :
    (lifetime_stats_tick env s).accumulated_e_diff = s.accumulated_e_diff ∧
    (lifetime_stats_tick env s).lifetime_print_centimeters = s.lifetime_print_centimeters ∧
    (lifetime_stats_tick env s).triptime_print_centimeters = s.triptime_print_centimeters ∧
    (lifetime_stats_tick env s).last_e_pos = env.current_position_E := by
  have hacc := reachable_printing_accumulator s hr hp
  have hrej : ¬ (env.current_position_E - s.last_e_pos > 0
      ∧ env.current_position_E - s.last_e_pos < 60 * 30) := by
    rintro ⟨h0, h1⟩
    rcases hd with h | h | h
    · rw [h] at h0; exact lt_irrefl _ h0
    · exact lt_asymm h h0
    · norm_num at h1; exact absurd h1 (not_lt.mpr h)
  obtain ⟨r1, r2, r3⟩ := printing_minute_rejected env
    { s with
      minute_counter_millis := u32 (s.minute_counter_millis + MILLIS_MINUTE)
      lifetime_minutes := u32 (s.lifetime_minutes + 1)
      triptime_minutes := u32 (s.triptime_minutes + 1) } hrej
  obtain ⟨-, -, -, -, -, -, f7, -, f9⟩ := printing_minute_frame env
    { s with
      minute_counter_millis := u32 (s.minute_counter_millis + MILLIS_MINUTE)
      lifetime_minutes := u32 (s.lifetime_minutes + 1)
      triptime_minutes := u32 (s.triptime_minutes + 1) }
  have hmc : minute_count env s = printing_minute env
      { s with
        minute_counter_millis := u32 (s.minute_counter_millis + MILLIS_MINUTE)
        lifetime_minutes := u32 (s.lifetime_minutes + 1)
        triptime_minutes := u32 (s.triptime_minutes + 1) } := by
    simp only [minute_count, if_pos hp]
  obtain ⟨-, h2, h3, -, -, h6, -, -, h9, -⟩ := hour_part_frame env (minute_part env s)
  unfold lifetime_stats_tick
  rw [h2, h3, h6, h9]
  simp only [minute_part, if_pos hfire, minute_block]
  rw [hmc]
  by_cases hb : env.movesplanned ≠ 0 ∨ env.IS_SD_PRINTING = true
  · simp only [session_update, if_pos hb]
    exact ⟨hacc.symm, r2, r3, trivial⟩
  · have hp' : (printing_minute env
        { s with
          minute_counter_millis := u32 (s.minute_counter_millis + MILLIS_MINUTE)
          lifetime_minutes := u32 (s.lifetime_minutes + 1)
          triptime_minutes := u32 (s.triptime_minutes + 1) }).is_printing = true := by
      rw [f7]; exact hp
    simp only [session_update, if_neg hb, if_pos hp', save_lifetime_stats]
    exact ⟨r1, r2, r3, f9⟩

theorem rejected_delta_witness :
    (lifetime_stats_tick (printing_env 120001 2000) printing_state).accumulated_e_diff
      = printing_state.accumulated_e_diff ∧
    (lifetime_stats_tick (printing_env 120001 2000) printing_state).lifetime_print_centimeters
      = printing_state.lifetime_print_centimeters ∧
    (lifetime_stats_tick (printing_env 120001 2000) printing_state).triptime_print_centimeters
      = printing_state.triptime_print_centimeters ∧
    (lifetime_stats_tick (printing_env 120001 2000) printing_state).last_e_pos = 2000 :=
  rejected_delta (printing_env 120001 2000) printing_state
    printing_state_reachable (by decide) (by decide)
    (Or.inr (Or.inr (by
      show (1800 : ℚ) ≤ 2000 - printing_state.last_e_pos
      rw [printing_state_fields.2.2.1]
      norm_num)))

/-- C9: on a printing controller with 32-bit counters, a tick whose minute
deadline fires under an idle oracle saves the state reached by the counting
step while `is_printing` is still set and only then clears the flag; after the
tick the record holds the magic and the six counters of the final state, which
include this tick's minute increments. -/
theorem active_to_idle (env : Env) (s : State) (hp : s.is_printing = true)
    (hc : s.Counters32) (hfire : s.minute_counter_millis < env.millis)
    (hidle : env.movesplanned = 0 ∧ env.IS_SD_PRINTING = false) :
    (minute_count env s).is_printing = true ∧
    minute_part env s
      = { save_lifetime_stats (minute_count env s) with is_printing := false } ∧
    (lifetime_stats_tick env s).is_printing = false ∧
    (lifetime_stats_tick env s).lifetime_minutes = u32 (s.lifetime_minutes + 1) ∧
    (lifetime_stats_tick env s).lifetime_print_minutes = u32 (s.lifetime_print_minutes + 1) ∧
    (lifetime_stats_tick env s).triptime_minutes = u32 (s.triptime_minutes + 1) ∧
    (lifetime_stats_tick env s).triptime_print_minutes = u32 (s.triptime_print_minutes + 1) ∧
    eeprom_read_dword (lifetime_stats_tick env s).eeprom 0x700 = 0x2624BA15 ∧
    eeprom_read_dword (lifetime_stats_tick env s).eeprom 0x704
      = (lifetime_stats_tick env s).lifetime_minutes ∧
    eeprom_read_dword (lifetime_stats_tick env s).eeprom 0x708
      = (lifetime_stats_tick env s).lifetime_print_minutes ∧
    eeprom_read_dword (lifetime_stats_tick env s).eeprom 0x70C
      = (lifetime_stats_tick env s).lifetime_print_centimeters ∧
    eeprom_read_dword (lifetime_stats_tick env s).eeprom 0x710
      = (lifetime_stats_tick env s).triptime_minutes ∧
    eeprom_read_dword (lifetime_stats_tick env s).eeprom 0x714
      = (lifetime_stats_tick env s).triptime_print_minutes ∧
    eeprom_read_dword (lifetime_stats_tick env s).eeprom 0x718
      = (lifetime_stats_tick env s).triptime_print_centimeters := by
  obtain ⟨he1, he2⟩ := hidle
  have hb : ¬ (env.movesplanned ≠ 0 ∨ env.IS_SD_PRINTING = true) := by
    simp [he1, he2]
  obtain ⟨-, -, m3, m4, m5, -⟩ := minute_count_fields env s
  have hmid : (minute_count env s).is_printing = true := m5.trans hp
  have hmp : minute_part env s
      = { save_lifetime_stats (minute_count env s) with is_printing := false } := by
    simp only [minute_part, if_pos hfire, minute_block, session_update, if_neg hb,
      if_pos hmid]
  have hmc : (minute_count env s).Counters32 := minute_count_counters32 env s hc
  have hpm : (minute_count env s).lifetime_print_minutes = u32 (s.lifetime_print_minutes + 1)
      ∧ (minute_count env s).triptime_print_minutes
        = u32 (s.triptime_print_minutes + 1) := by
    simp only [minute_count, if_pos hp]
    obtain ⟨-, -, -, -, f5, f6, -, -, -⟩ := printing_minute_frame env
      { s with
        minute_counter_millis := u32 (s.minute_counter_millis + MILLIS_MINUTE)
        lifetime_minutes := u32 (s.lifetime_minutes + 1)
        triptime_minutes := u32 (s.triptime_minutes + 1) }
    exact ⟨f5, f6⟩
  obtain ⟨-, -, -, g4, g5, g6, g7, g8, g9, g10⟩ := hour_part_frame env (minute_part env s)
  have he := hour_part_eeprom env (minute_part env s)
  refine ⟨hmid, hmp, ?_⟩
  unfold lifetime_stats_tick
  rw [g4, g5, g6, g7, g8, g9, g10, he, hmp]
  obtain ⟨q1, q2⟩ := hpm
  generalize minute_count env s = mid at m3 m4 hmc q1 q2 ⊢
  have hw : save_writes ({ save_lifetime_stats mid with is_printing := false } : State)
      = save_writes mid := rfl
  have hee : ({ save_lifetime_stats mid with is_printing := false } : State).eeprom
      = eeprom_write_all mid.eeprom (save_writes mid) := rfl
  rw [hw, hee]
  refine ⟨rfl, m3, q1, m4, q2, ?_⟩
  split_ifs
  · exact writes_reads _ mid hmc
  · exact writes_reads _ mid hmc

theorem active_to_idle_witness :
    (minute_count (idle_env 120001) printing_state).is_printing = true ∧
    (lifetime_stats_tick (idle_env 120001) printing_state).is_printing = false ∧
    (lifetime_stats_tick (idle_env 120001) printing_state).lifetime_print_minutes
      = u32 (printing_state.lifetime_print_minutes + 1) ∧
    eeprom_read_dword (lifetime_stats_tick (idle_env 120001) printing_state).eeprom 0x700
      = 0x2624BA15 ∧
    eeprom_read_dword (lifetime_stats_tick (idle_env 120001) printing_state).eeprom 0x708
      = (lifetime_stats_tick (idle_env 120001) printing_state).lifetime_print_minutes := by
  have h := active_to_idle (idle_env 120001) printing_state (by decide)
    (by unfold State.Counters32; decide) (by decide) ⟨rfl, rfl⟩
  exact ⟨h.1, h.2.2.1, h.2.2.2.2.1, h.2.2.2.2.2.2.2.1, h.2.2.2.2.2.2.2.2.2.1⟩

/-! ## Further single-tick facts -/

/-- The minute part never touches the hour deadline. -/
theorem minute_part_hour_save_millis (env : Env) (s : State) :
    (minute_part env s).hour_save_millis = s.hour_save_millis := by
  by_cases hfire : s.minute_counter_millis < env.millis
  · simp only [minute_part, if_pos hfire, minute_block]
    rw [(session_update_frame env (minute_count env s)).2.1, (minute_count_fields env s).2.1]
  · simp only [minute_part, if_neg hfire]

/-- The minute part keeps the counters within 32 bits. -/
theorem minute_part_counters32 (env : Env) (s : State) (h : s.Counters32) :
    (minute_part env s).Counters32 := by
  by_cases hfire : s.minute_counter_millis < env.millis
  · simp only [minute_part, if_pos hfire, minute_block]
    obtain ⟨-, -, f3, f4, f5, f6, f7, f8⟩ := session_update_frame env (minute_count env s)
    obtain ⟨c1, c2, c3, c4, c5, c6⟩ := minute_count_counters32 env s h
    unfold State.Counters32
    rw [f3, f4, f5, f6, f7, f8]
    exact ⟨c1, c2, c3, c4, c5, c6⟩
  · simp only [minute_part, if_neg hfire]
    exact h

/-- The session flag after a tick. -/
theorem tick_is_printing (env : Env) (s : State) :
    (lifetime_stats_tick env s).is_printing
      = if s.minute_counter_millis < env.millis
        then decide (env.movesplanned ≠ 0 ∨ env.IS_SD_PRINTING = true)
        else s.is_printing := by
  unfold lifetime_stats_tick
  rw [(hour_part_frame env (minute_part env s)).2.2.2.2.2.2.2.2.2]
  by_cases hfire : s.minute_counter_millis < env.millis
  · rw [if_pos hfire]
    by_cases hb : env.movesplanned ≠ 0 ∨ env.IS_SD_PRINTING = true
    · simp only [minute_part, if_pos hfire, minute_block, session_update, if_pos hb]
      exact (decide_eq_true hb).symm
    · simp only [minute_part, if_pos hfire, minute_block, session_update, if_neg hb]
      exact (decide_eq_false hb).symm
  · rw [if_neg hfire]
    simp only [minute_part, if_neg hfire]

/-- C14: a tick at a clock value that has passed neither the minute deadline nor
the hour deadline returns the state it was given: counters, session flag,
`last_e_pos`, accumulator, both deadlines and the EEPROM are the same, whatever
the oracle reports. -/
theorem tick_before_deadlines (env : Env) (s : State)
    (hm : ¬ s.minute_counter_millis < env.millis)
    (hh : ¬ s.hour_save_millis < env.millis) :
    lifetime_stats_tick env s = s := by
  simp only [lifetime_stats_tick, minute_part, if_neg hm, hour_part, if_neg hh]

theorem tick_before_deadlines_witness :
    lifetime_stats_tick (printing_env 60000 42) sample_state = sample_state :=
  tick_before_deadlines (printing_env 60000 42) sample_state (by decide) (by decide)

/-- C18: after a tick in which the minute deadline fires, `is_printing` is true
exactly when the pending-move count is non-zero or an SD print is active,
whatever it was before; after a tick in which the minute deadline does not fire
it is unchanged. -/
theorem session_classification (env : Env) (s : State) :
    (lifetime_stats_tick env s).is_printing
      = if s.minute_counter_millis < env.millis
        then decide (env.movesplanned ≠ 0 ∨ env.IS_SD_PRINTING = true)
        else s.is_printing :=
  tick_is_printing env s

/-- C11: on 32-bit counters, a tick at clock value `m` whose hour deadline has
passed sets the hour deadline to `m + 3600000` modulo `2 ^ 32` and leaves the
record holding the magic and the six counters of the state at the end of the
tick, a minute increment of the same tick included, whether or not
`is_printing` holds; a tick whose hour deadline has not passed leaves the hour
deadline unchanged. -/
theorem hourly_heartbeat (env : Env) (s : State) (hc : s.Counters32) :
    (lifetime_stats_tick env s).hour_save_millis
      = (if s.hour_save_millis < env.millis
          then (env.millis + 3600000) % 2 ^ 32 else s.hour_save_millis) ∧
    (lifetime_stats_tick env s).lifetime_minutes
      = (if s.minute_counter_millis < env.millis
          then u32 (s.lifetime_minutes + 1) else s.lifetime_minutes) ∧
    (s.hour_save_millis < env.millis →
      eeprom_read_dword (lifetime_stats_tick env s).eeprom 0x700 = 0x2624BA15 ∧
      eeprom_read_dword (lifetime_stats_tick env s).eeprom 0x704
        = (lifetime_stats_tick env s).lifetime_minutes ∧
      eeprom_read_dword (lifetime_stats_tick env s).eeprom 0x708
        = (lifetime_stats_tick env s).lifetime_print_minutes ∧
      eeprom_read_dword (lifetime_stats_tick env s).eeprom 0x70C
        = (lifetime_stats_tick env s).lifetime_print_centimeters ∧
      eeprom_read_dword (lifetime_stats_tick env s).eeprom 0x710
        = (lifetime_stats_tick env s).triptime_minutes ∧
      eeprom_read_dword (lifetime_stats_tick env s).eeprom 0x714
        = (lifetime_stats_tick env s).triptime_print_minutes ∧
      eeprom_read_dword (lifetime_stats_tick env s).eeprom 0x718
        = (lifetime_stats_tick env s).triptime_print_centimeters) := by
  have hmh := minute_part_hour_save_millis env s
  have hmc := minute_part_counters32 env s hc
  obtain ⟨-, -, -, g4, g5, g6, g7, g8, g9, -⟩ := hour_part_frame env (minute_part env s)
  have he := hour_part_eeprom env (minute_part env s)
  have hlm : (minute_part env s).lifetime_minutes
      = (if s.minute_counter_millis < env.millis
          then u32 (s.lifetime_minutes + 1) else s.lifetime_minutes) := by
    by_cases hfire : s.minute_counter_millis < env.millis
    · rw [if_pos hfire]
      simp only [minute_part, if_pos hfire, minute_block]
      rw [(session_update_frame env (minute_count env s)).2.2.1,
        (minute_count_fields env s).2.2.1]
    · rw [if_neg hfire]
      simp only [minute_part, if_neg hfire]
  unfold lifetime_stats_tick
  rw [g4, g5, g6, g7, g8, g9, he, hmh]
  generalize minute_part env s = mp at hmh hmc hlm ⊢
  refine ⟨?_, hlm, ?_⟩
  · by_cases hh : s.hour_save_millis < env.millis
    · have hh' : mp.hour_save_millis < env.millis := by rw [hmh]; exact hh
      simp only [hour_part, if_pos hh', if_pos hh, save_lifetime_stats, u32, MILLIS_HOUR,
        MILLIS_MINUTE]
    · have hh' : ¬ mp.hour_save_millis < env.millis := by rw [hmh]; exact hh
      simp only [hour_part, if_neg hh', if_neg hh]
      exact hmh
  · intro hh
    rw [if_pos hh]
    exact writes_reads _ mp hmc

theorem hourly_heartbeat_witness :
    (lifetime_stats_tick (idle_env 3600001) sample_state).hour_save_millis
      = (if sample_state.hour_save_millis < (idle_env 3600001).millis
          then ((idle_env 3600001).millis + 3600000) % 2 ^ 32
          else sample_state.hour_save_millis) ∧
    eeprom_read_dword (lifetime_stats_tick (idle_env 3600001) sample_state).eeprom 0x704
      = (lifetime_stats_tick (idle_env 3600001) sample_state).lifetime_minutes := by
  have h := hourly_heartbeat (idle_env 3600001) sample_state sample_state_counters32
  exact ⟨h.1, (h.2.2 (by decide)).2.1⟩

/-! ## Effect of a save on the EEPROM -/

/-- A word write changes only the four bytes of the word. -/
theorem eeprom_write_dword_other (e : Eeprom) (a v i : Nat) (h : i < a ∨ a + 4 ≤ i) :
    eeprom_write_dword e a v i = e i := by
  have h0 : i ≠ a := by omega
  have h1 : i ≠ a + 1 := by omega
  have h2 : i ≠ a + 2 := by omega
  have h3 : i ≠ a + 3 := by omega
  simp [eeprom_write_dword, eeprom_write_byte, h0, h1, h2, h3]

/-- The four bytes of a written word do not depend on what was stored before. -/
theorem eeprom_write_dword_covered (e e' : Eeprom) (a v i : Nat) (h0 : a ≤ i)
    (h1 : i < a + 4) :
    eeprom_write_dword e a v i = eeprom_write_dword e' a v i := by
  simp only [eeprom_write_dword, eeprom_write_byte]
  split_ifs
  · rfl
  · rfl
  · rfl
  · rfl
  · omega

/-- A byte that none of the writes covers keeps its value. -/
theorem write_all_untouched (i : Nat) (ws : List (Nat × Nat)) :
    ∀ f : Eeprom, (∀ w ∈ ws, i < w.1 ∨ w.1 + 4 ≤ i) → eeprom_write_all f ws i = f i := by
  induction ws with
  | nil => intro f _; rfl
  | cons w ws ih =>
    intro f h
    have hw := h w (List.mem_cons_self w ws)
    have := ih (eeprom_write_dword f w.1 w.2) (fun x hx => h x (List.mem_cons_of_mem w hx))
    simp only [eeprom_write_all, List.foldl_cons] at this ⊢
    rw [this, eeprom_write_dword_other f w.1 w.2 i hw]

/-- A byte that one of the writes covers does not depend on the previous content. -/
theorem write_all_covered (i : Nat) (ws : List (Nat × Nat)) :
    ∀ e e' : Eeprom, (∃ w ∈ ws, w.1 ≤ i ∧ i < w.1 + 4) →
      eeprom_write_all e ws i = eeprom_write_all e' ws i := by
  induction ws with
  | nil => intro e e' h; obtain ⟨w, hw, -⟩ := h; cases hw
  | cons w ws ih =>
    intro e e' h
    by_cases hlater : ∃ x ∈ ws, x.1 ≤ i ∧ i < x.1 + 4
    · have := ih (eeprom_write_dword e w.1 w.2) (eeprom_write_dword e' w.1 w.2) hlater
      simpa only [eeprom_write_all, List.foldl_cons] using this
    · have hnone : ∀ x ∈ ws, i < x.1 ∨ x.1 + 4 ≤ i := by
        intro x hx
        by_contra hc
        exact hlater ⟨x, hx, by omega⟩
      have hw : w.1 ≤ i ∧ i < w.1 + 4 := by
        obtain ⟨x, hx, hxi⟩ := h
        rcases List.mem_cons.mp hx with rfl | hx'
        · exact hxi
        · exact absurd ⟨x, hx', hxi⟩ hlater
      have h1 := write_all_untouched i ws (eeprom_write_dword e w.1 w.2) hnone
      have h2 := write_all_untouched i ws (eeprom_write_dword e' w.1 w.2) hnone
      simp only [eeprom_write_all, List.foldl_cons] at h1 h2 ⊢
      rw [h1, h2]
      exact eeprom_write_dword_covered e e' w.1 w.2 i hw.1 hw.2

/-- Bytes outside the record survive the seven writes of a save. -/
theorem writes_outside (e : Eeprom) (s : State) (i : Nat) (h : i < 0x700 ∨ 0x71C ≤ i) :
    eeprom_write_all e (save_writes s) i = e i := by
  apply write_all_untouched
  intro w hw
  simp only [save_writes, LIFETIME_EEPROM_OFFSET, List.mem_cons, List.mem_singleton,
    List.mem_nil_iff, or_false] at hw
  rcases hw with rfl | rfl | rfl | rfl | rfl | rfl | rfl <;> simp only [] <;> omega

/-- Inside the record the seven writes of a save decide every byte, whatever
was stored before. -/
theorem writes_inside (e e' : Eeprom) (s : State) (i : Nat) (h0 : 0x700 ≤ i)
    (h1 : i < 0x71C) :
    eeprom_write_all e (save_writes s) i = eeprom_write_all e' (save_writes s) i := by
  apply write_all_covered
  simp only [save_writes, LIFETIME_EEPROM_OFFSET, List.mem_cons, List.mem_singleton,
    List.mem_nil_iff, or_false, exists_eq_or_imp, exists_eq_left]
  omega

/-- Carrying out the seven writes of a save twice is the same as once. -/
theorem writes_twice (e : Eeprom) (s : State) :
    eeprom_write_all (eeprom_write_all e (save_writes s)) (save_writes s)
      = eeprom_write_all e (save_writes s) := by
  funext i
  by_cases h : 0x700 ≤ i ∧ i < 0x71C
  · exact writes_inside _ _ s i h.1 h.2
  · rw [writes_outside _ s i (by omega)]
/-- C13: on 32-bit counters `save_lifetime_stats` carries out the seven word
writes in record order; afterwards the magic stands at `0x700` and the six
counters at `0x704` to `0x718`, every byte outside `[0x700, 0x71C)` and every
variable is as before, and a second save changes nothing. -/
theorem save_effect (s : State) (hc : s.Counters32) :
    (save_lifetime_stats s).eeprom = eeprom_write_all s.eeprom
      [(0x700, 0x2624BA15), (0x704, s.lifetime_minutes), (0x708, s.lifetime_print_minutes),
       (0x70C, s.lifetime_print_centimeters), (0x710, s.triptime_minutes),
       (0x714, s.triptime_print_minutes), (0x718, s.triptime_print_centimeters)] ∧
    eeprom_read_dword (save_lifetime_stats s).eeprom 0x700 = 0x2624BA15 ∧
    eeprom_read_dword (save_lifetime_stats s).eeprom 0x704 = s.lifetime_minutes ∧
    eeprom_read_dword (save_lifetime_stats s).eeprom 0x708 = s.lifetime_print_minutes ∧
    eeprom_read_dword (save_lifetime_stats s).eeprom 0x70C = s.lifetime_print_centimeters ∧
    eeprom_read_dword (save_lifetime_stats s).eeprom 0x710 = s.triptime_minutes ∧
    eeprom_read_dword (save_lifetime_stats s).eeprom 0x714 = s.triptime_print_minutes ∧
    eeprom_read_dword (save_lifetime_stats s).eeprom 0x718 = s.triptime_print_centimeters ∧
    (∀ a, a < 0x700 ∨ 0x71C ≤ a → (save_lifetime_stats s).eeprom a = s.eeprom a) ∧
    (save_lifetime_stats s).minute_counter_millis = s.minute_counter_millis ∧
    (save_lifetime_stats s).hour_save_millis = s.hour_save_millis ∧
    (save_lifetime_stats s).last_e_pos = s.last_e_pos ∧
    (save_lifetime_stats s).accumulated_e_diff = s.accumulated_e_diff ∧
    (save_lifetime_stats s).lifetime_minutes = s.lifetime_minutes ∧
    (save_lifetime_stats s).lifetime_print_minutes = s.lifetime_print_minutes ∧
    (save_lifetime_stats s).lifetime_print_centimeters = s.lifetime_print_centimeters ∧
    (save_lifetime_stats s).triptime_minutes = s.triptime_minutes ∧
    (save_lifetime_stats s).triptime_print_minutes = s.triptime_print_minutes ∧
    (save_lifetime_stats s).triptime_print_centimeters = s.triptime_print_centimeters ∧
    (save_lifetime_stats s).is_printing = s.is_printing ∧
    save_lifetime_stats (save_lifetime_stats s) = save_lifetime_stats s := by
  obtain ⟨r0, r1, r2, r3, r4, r5, r6⟩ := writes_reads s.eeprom s hc
  have hidem : save_lifetime_stats (save_lifetime_stats s) = save_lifetime_stats s := by
    have h2 := writes_twice s.eeprom s
    simp only [save_lifetime_stats, save_writes] at h2 ⊢
    rw [h2]
  exact ⟨rfl, r0, r1, r2, r3, r4, r5, r6, fun a ha => writes_outside s.eeprom s a ha,
    rfl, rfl, rfl, rfl, rfl, rfl, rfl, rfl, rfl, rfl, rfl, hidem⟩

theorem save_effect_witness :
    eeprom_read_dword (save_lifetime_stats sample_state).eeprom 0x700 = 0x2624BA15 ∧
    eeprom_read_dword (save_lifetime_stats sample_state).eeprom 0x704 = 600 ∧
    eeprom_read_dword (save_lifetime_stats sample_state).eeprom 0x718 = 100 ∧
    save_lifetime_stats (save_lifetime_stats sample_state) = save_lifetime_stats sample_state := by
  have h := save_effect sample_state sample_state_counters32
  exact ⟨h.2.1, h.2.2.1, h.2.2.2.2.2.2.2.1, h.2.2.2.2.2.2.2.2.2.2.2.2.2.2.2.2.2.2.2.2⟩

/-! ## Deadline tests and clock wraparound -/

/-- The minute counters after a tick. -/
theorem tick_minutes (env : Env) (s : State) :
    (lifetime_stats_tick env s).lifetime_minutes
      = (if s.minute_counter_millis < env.millis
          then u32 (s.lifetime_minutes + 1) else s.lifetime_minutes) ∧
    (lifetime_stats_tick env s).triptime_minutes
      = (if s.minute_counter_millis < env.millis
          then u32 (s.triptime_minutes + 1) else s.triptime_minutes) := by
  obtain ⟨-, -, -, g4, -, -, g7, -, -, -⟩ := hour_part_frame env (minute_part env s)
  unfold lifetime_stats_tick
  rw [g4, g7]
  by_cases hfire : s.minute_counter_millis < env.millis
  · rw [if_pos hfire, if_pos hfire]
    simp only [minute_part, if_pos hfire, minute_block]
    obtain ⟨-, -, f3, -, -, f6, -, -⟩ := session_update_frame env (minute_count env s)
    obtain ⟨-, -, m3, m4, -, -⟩ := minute_count_fields env s
    rw [f3, f6, m3, m4]
    exact ⟨rfl, rfl⟩
  · rw [if_neg hfire, if_neg hfire]
    simp only [minute_part, if_neg hfire, and_self]

/-- The hour deadline after a tick. -/
theorem tick_hour_save_millis (env : Env) (s : State) :
    (lifetime_stats_tick env s).hour_save_millis
      = if s.hour_save_millis < env.millis
        then (env.millis + 3600000) % 2 ^ 32 else s.hour_save_millis := by
  have hmh := minute_part_hour_save_millis env s
  unfold lifetime_stats_tick
  generalize minute_part env s = mp at hmh ⊢
  by_cases hh : s.hour_save_millis < env.millis
  · have hh' : mp.hour_save_millis < env.millis := by rw [hmh]; exact hh
    simp only [hour_part, if_pos hh', if_pos hh, save_lifetime_stats, u32, MILLIS_HOUR,
      MILLIS_MINUTE]
  · have hh' : ¬ mp.hour_save_millis < env.millis := by rw [hmh]; exact hh
    simp only [hour_part, if_neg hh', if_neg hh]
    exact hmh

/-- Plain comparison against wraparound order on 32-bit values. -/
theorem lt_iff_wrap_after (d m : Nat) (hd : d < 2 ^ 32) (hm : m < 2 ^ 32) :
    (d < m ↔ wrap_after d m) ↔ (m - d < 2 ^ 31 ∧ d - m ≤ 2 ^ 31) := by
  unfold wrap_after
  constructor
  · intro h
    by_cases hlt : d < m
    · have := h.mp hlt
      omega
    · have hn : ¬ (0 < (m + 2 ^ 32 - d) % 2 ^ 32 ∧ (m + 2 ^ 32 - d) % 2 ^ 32 < 2 ^ 31) :=
        fun hw => hlt (h.mpr hw)
      omega
  · intro h
    constructor
    · intro hlt
      omega
    · intro hw
      omega

/-- C12 (the code at a failing input): started at `2 ^ 32 - 30000` over an
erased EEPROM, both deadlines overflow (minute 30000, hour 3570000). At each of
the next three clock values, 1 ms apart, the clock has not wrapped and is not
after either deadline in wraparound order, yet every tick counts a minute and
rewrites the record. -/
theorem wrapped_deadlines_fire_every_tick :
    wrap_start.minute_counter_millis = 30000 ∧
    wrap_start.hour_save_millis = 3570000 ∧
    wrap_start.lifetime_minutes = 0 ∧
    ¬ wrap_after 30000 4294937297 ∧
    ¬ wrap_after 3570000 4294937297 ∧
    (run_ticks [idle_env 4294937297] wrap_start).lifetime_minutes = 1 ∧
    eeprom_read_dword (run_ticks [idle_env 4294937297] wrap_start).eeprom 0x704 = 1 ∧
    (run_ticks [idle_env 4294937297] wrap_start).minute_counter_millis = 90000 ∧
    (run_ticks [idle_env 4294937297] wrap_start).hour_save_millis = 3570001 ∧
    ¬ wrap_after 90000 4294937298 ∧
    ¬ wrap_after 3570001 4294937298 ∧
    (run_ticks [idle_env 4294937297, idle_env 4294937298] wrap_start).lifetime_minutes
      = 2 ∧
    eeprom_read_dword
      (run_ticks [idle_env 4294937297, idle_env 4294937298] wrap_start).eeprom 0x704 = 2 ∧
    (run_ticks wrap_run wrap_start).lifetime_minutes = 3 ∧
    eeprom_read_dword (run_ticks wrap_run wrap_start).eeprom 0x704 = 3 := by
  refine ⟨by decide, by decide, by decide, ?_, ?_, by decide, by decide, by decide,
    by decide, ?_, ?_, by decide, by decide, by decide, by decide⟩ <;>
  · unfold wrap_after
    decide

/-- Both deadline tests are plain comparisons: with clock and deadlines as 32-bit
values, the minute deadline `d` fires at clock value `m` exactly when `d < m`,
and likewise the hour deadline; the plain comparison agrees with wraparound
order exactly when `m - d < 2 ^ 31` for `d < m` and `d - m ≤ 2 ^ 31` otherwise. -/
theorem deadline_test_plain (env : Env) (s : State)
    (hd : s.minute_counter_millis < 2 ^ 32) (hh : s.hour_save_millis < 2 ^ 32)
    (hm : env.millis < 2 ^ 32) :
    (lifetime_stats_tick env s).lifetime_minutes
      = (if s.minute_counter_millis < env.millis
          then u32 (s.lifetime_minutes + 1) else s.lifetime_minutes) ∧
    (lifetime_stats_tick env s).minute_counter_millis
      = (if s.minute_counter_millis < env.millis
          then (s.minute_counter_millis + 60000) % 2 ^ 32 else s.minute_counter_millis) ∧
    (lifetime_stats_tick env s).hour_save_millis
      = (if s.hour_save_millis < env.millis
          then (env.millis + 3600000) % 2 ^ 32 else s.hour_save_millis) ∧
    ((s.minute_counter_millis < env.millis ↔ wrap_after s.minute_counter_millis env.millis)
      ↔ (env.millis - s.minute_counter_millis < 2 ^ 31
        ∧ s.minute_counter_millis - env.millis ≤ 2 ^ 31)) ∧
    ((s.hour_save_millis < env.millis ↔ wrap_after s.hour_save_millis env.millis)
      ↔ (env.millis - s.hour_save_millis < 2 ^ 31
        ∧ s.hour_save_millis - env.millis ≤ 2 ^ 31)) :=
  ⟨(tick_minutes env s).1, tick_minute_counter_millis env s, tick_hour_save_millis env s,
    lt_iff_wrap_after _ _ hd hm, lt_iff_wrap_after _ _ hh hm⟩

theorem deadline_test_plain_witness :
    (lifetime_stats_tick (idle_env 60001) sample_state).lifetime_minutes
      = (if sample_state.minute_counter_millis < (idle_env 60001).millis
          then u32 (sample_state.lifetime_minutes + 1) else sample_state.lifetime_minutes) ∧
    ((sample_state.minute_counter_millis < (idle_env 60001).millis
        ↔ wrap_after sample_state.minute_counter_millis (idle_env 60001).millis)
      ↔ ((idle_env 60001).millis - sample_state.minute_counter_millis < 2 ^ 31
        ∧ sample_state.minute_counter_millis - (idle_env 60001).millis ≤ 2 ^ 31)) := by
  have h := deadline_test_plain (idle_env 60001) sample_state (by decide) (by decide)
    (by decide)
  exact ⟨h.1, h.2.2.2.1⟩

/-! ## Carry accounting -/

/-- Account of a carry loop that has enough fuel: it runs some `n` iterations,
adds `n` to both length counters, takes `10 * n` off the accumulator, leaves at
most 10, and more fuel changes nothing. -/
theorem carry_loop_iterations (fuel : Nat) : ∀ s : State,
    s.lifetime_print_centimeters < 2 ^ 32 → s.triptime_print_centimeters < 2 ^ 32 →
    s.accumulated_e_diff ≤ 10 * (fuel + 1) →
    ∃ n : Nat, n ≤ fuel ∧
      (carry_loop fuel s).lifetime_print_centimeters
        = (s.lifetime_print_centimeters + n) % 2 ^ 32 ∧
      (carry_loop fuel s).triptime_print_centimeters
        = (s.triptime_print_centimeters + n) % 2 ^ 32 ∧
      s.accumulated_e_diff = 10 * n + (carry_loop fuel s).accumulated_e_diff ∧
      (carry_loop fuel s).accumulated_e_diff ≤ 10 ∧
      (0 < n → 0 < (carry_loop fuel s).accumulated_e_diff) ∧
      (s.accumulated_e_diff ≤ 10 → n = 0) ∧
      (∀ f, n ≤ f → carry_loop f s = carry_loop fuel s) := by
  induction fuel with
  | zero =>
    intro s hl ht ha
    have ha' : s.accumulated_e_diff ≤ 10 := by simpa using ha
    refine ⟨0, le_refl _, ?_, ?_, ?_, ha', ?_, fun _ => rfl, ?_⟩
    · simp only [carry_loop, Nat.add_zero]; exact (Nat.mod_eq_of_lt hl).symm
    · simp only [carry_loop, Nat.add_zero]; exact (Nat.mod_eq_of_lt ht).symm
    · simp [carry_loop]
    · intro h; exact absurd h (lt_irrefl _)
    · intro f _; rw [carry_loop_of_le f s ha', carry_loop_of_le 0 s ha']
  | succ fuel ih =>
    intro s hl ht ha
    by_cases hc : s.accumulated_e_diff > 10
    · have hu : ∀ x, u32 x < 2 ^ 32 := fun x => Nat.mod_lt _ (by norm_num)
      have ha' : s.accumulated_e_diff - 10 ≤ 10 * ((fuel : ℚ) + 1) := by
        push_cast at ha
        linarith
      obtain ⟨n, hn, i1, i2, i3, i4, i5, -, i7⟩ := ih
        { s with
          lifetime_print_centimeters := u32 (s.lifetime_print_centimeters + 1)
          triptime_print_centimeters := u32 (s.triptime_print_centimeters + 1)
          accumulated_e_diff := s.accumulated_e_diff - 10 } (hu _) (hu _) ha'
      simp only [carry_loop, if_pos hc]
      refine ⟨n + 1, by omega, ?_, ?_, ?_, i4, ?_, ?_, ?_⟩
      · rw [i1]; simp only [u32]; omega
      · rw [i2]; simp only [u32]; omega
      · simp only [] at i3
        push_cast
        linarith
      · intro _
        by_cases hn0 : 0 < n
        · exact i5 hn0
        · have hz : n = 0 := by omega
          rw [hz] at i3
          simp only [Nat.cast_zero, mul_zero, zero_add] at i3
          rw [← i3]
          linarith
      · intro h; exact absurd hc (not_lt.mpr h)
      · intro f hf
        obtain ⟨f', rfl⟩ : ∃ f', f = f' + 1 := ⟨f - 1, by omega⟩
        simp only [carry_loop, if_pos hc]
        exact i7 f' (by omega)
    · have ha' : s.accumulated_e_diff ≤ 10 := not_lt.mp hc
      simp only [carry_loop, if_neg hc]
      refine ⟨0, Nat.zero_le _, ?_, ?_, ?_, ha', ?_, fun _ => rfl, ?_⟩
      · simp only [Nat.add_zero]; exact (Nat.mod_eq_of_lt hl).symm
      · simp only [Nat.add_zero]; exact (Nat.mod_eq_of_lt ht).symm
      · simp
      · intro h; exact absurd h (lt_irrefl _)
      · intro f _; exact carry_loop_of_le f s ha'

/-- The fuel computed from the accumulator bounds it. -/
theorem carry_fuel_bound (a : ℚ) : a ≤ 10 * ((carry_fuel a : ℚ) + 1) := by
  have h1 : a / 10 ≤ (Int.ceil (a / 10) : ℚ) := Int.le_ceil _
  have h2 : (Int.ceil (a / 10) : ℚ) ≤ ((Int.toNat (Int.ceil (a / 10)) : ℕ) : ℚ) := by
    have := Int.self_le_toNat (Int.ceil (a / 10))
    exact_mod_cast this
  unfold carry_fuel
  linarith

/-- The length counters after a tick are those after the counting step. -/
theorem tick_centimeters (env : Env) (s : State) :
    (lifetime_stats_tick env s).lifetime_print_centimeters
      = (if s.minute_counter_millis < env.millis
          then (minute_count env s).lifetime_print_centimeters
          else s.lifetime_print_centimeters) ∧
    (lifetime_stats_tick env s).triptime_print_centimeters
      = (if s.minute_counter_millis < env.millis
          then (minute_count env s).triptime_print_centimeters
          else s.triptime_print_centimeters) := by
  obtain ⟨-, -, -, -, -, g6, -, -, g9, -⟩ := hour_part_frame env (minute_part env s)
  unfold lifetime_stats_tick
  rw [g6, g9]
  by_cases hfire : s.minute_counter_millis < env.millis
  · rw [if_pos hfire, if_pos hfire]
    simp only [minute_part, if_pos hfire, minute_block]
    obtain ⟨-, -, -, -, f5, -, -, f8⟩ := session_update_frame env (minute_count env s)
    exact ⟨f5, f8⟩
  · rw [if_neg hfire, if_neg hfire]
    simp only [minute_part, if_neg hfire, and_self]

/-- Account of the counting step of a printing minute with an accepted delta. -/
theorem minute_count_carry (env : Env) (s : State) (hp : s.is_printing = true)
    (hd0 : env.current_position_E - s.last_e_pos > 0)
    (hd1 : env.current_position_E - s.last_e_pos < 60 * 30)
    (hl : s.lifetime_print_centimeters < 2 ^ 32)
    (ht : s.triptime_print_centimeters < 2 ^ 32) :
    ∃ n : Nat,
      n ≤ carry_fuel (s.accumulated_e_diff + (env.current_position_E - s.last_e_pos)
        * env.volumetric_multiplier env.active_extruder) ∧
      (minute_count env s).lifetime_print_centimeters
        = (s.lifetime_print_centimeters + n) % 2 ^ 32 ∧
      (minute_count env s).triptime_print_centimeters
        = (s.triptime_print_centimeters + n) % 2 ^ 32 ∧
      s.accumulated_e_diff + (env.current_position_E - s.last_e_pos)
          * env.volumetric_multiplier env.active_extruder
        = 10 * n + (minute_count env s).accumulated_e_diff ∧
      (minute_count env s).accumulated_e_diff ≤ 10 ∧
      (0 < n → 0 < (minute_count env s).accumulated_e_diff) ∧
      (s.accumulated_e_diff + (env.current_position_E - s.last_e_pos)
          * env.volumetric_multiplier env.active_extruder ≤ 10 → n = 0) := by
  have hacc : (env.current_position_E - s.last_e_pos > 0
      ∧ env.current_position_E - s.last_e_pos < 60 * 30) := ⟨hd0, hd1⟩
  simp only [minute_count, if_pos hp, printing_minute, if_pos hacc]
  obtain ⟨n, hn, i1, i2, i3, i4, i5, i6, -⟩ := carry_loop_iterations
    (carry_fuel (s.accumulated_e_diff + (env.current_position_E - s.last_e_pos)
      * env.volumetric_multiplier env.active_extruder))
    { s with
      minute_counter_millis := u32 (s.minute_counter_millis + MILLIS_MINUTE)
      lifetime_minutes := u32 (s.lifetime_minutes + 1)
      triptime_minutes := u32 (s.triptime_minutes + 1)
      lifetime_print_minutes := u32 (s.lifetime_print_minutes + 1)
      triptime_print_minutes := u32 (s.triptime_print_minutes + 1)
      accumulated_e_diff := s.accumulated_e_diff + (env.current_position_E - s.last_e_pos)
        * env.volumetric_multiplier env.active_extruder }
    hl ht (carry_fuel_bound _)
  exact ⟨n, hn, i1, i2, i3, i4, i5, i6⟩

/-- C19: in a minute tick with `is_printing` set and an accepted delta, over
exact arithmetic, the carry loop leaves through its test after some `n`
iterations within its fuel; both length counters grow by `n` modulo `2 ^ 32`,
the accumulator `a` and the scaled delta `s` satisfy `a + s = 10 * n + r` for
the value `r` the loop leaves, `r ≤ 10`, `r > 0` when `n > 0`, and `n = 0` when
`a + s ≤ 10`. -/
theorem carry_conservation (env : Env) (s : State) (hp : s.is_printing = true)
    (hfire : s.minute_counter_millis < env.millis)
    (hd0 : 0 < env.current_position_E - s.last_e_pos)
    (hd1 : env.current_position_E - s.last_e_pos < 1800)
    (hl : s.lifetime_print_centimeters < 2 ^ 32)
    (ht : s.triptime_print_centimeters < 2 ^ 32) :
    ∃ n : Nat,
      n ≤ carry_fuel (s.accumulated_e_diff + (env.current_position_E - s.last_e_pos)
        * env.volumetric_multiplier env.active_extruder) ∧
      (lifetime_stats_tick env s).lifetime_print_centimeters
        = (s.lifetime_print_centimeters + n) % 2 ^ 32 ∧
      (lifetime_stats_tick env s).triptime_print_centimeters
        = (s.triptime_print_centimeters + n) % 2 ^ 32 ∧
      s.accumulated_e_diff + (env.current_position_E - s.last_e_pos)
          * env.volumetric_multiplier env.active_extruder
        = 10 * n + (minute_count env s).accumulated_e_diff ∧
      (minute_count env s).accumulated_e_diff ≤ 10 ∧
      (0 < n → 0 < (minute_count env s).accumulated_e_diff) ∧
      (s.accumulated_e_diff + (env.current_position_E - s.last_e_pos)
          * env.volumetric_multiplier env.active_extruder ≤ 10 → n = 0) := by
  have hd1' : env.current_position_E - s.last_e_pos < 60 * 30 := by
    norm_num
    exact hd1
  obtain ⟨n, hn, i1, i2, i3, i4, i5, i6⟩ := minute_count_carry env s hp hd0 hd1' hl ht
  obtain ⟨c1, c2⟩ := tick_centimeters env s
  rw [if_pos hfire] at c1 c2
  exact ⟨n, hn, c1.trans i1, c2.trans i2, i3, i4, i5, i6⟩

theorem carry_conservation_witness :
    (lifetime_stats_tick (printing_env 120001 25) printing_state).lifetime_print_centimeters
      = 2 ∧
    (lifetime_stats_tick (printing_env 120001 25) printing_state).triptime_print_centimeters
      = 2 ∧
    (minute_count (printing_env 120001 25) printing_state).accumulated_e_diff = 5 := by
  obtain ⟨p0, a0, l0, -, c0, t0⟩ := printing_state_fields
  obtain ⟨n, -, h1, h2, h3, h4, h5, -⟩ := carry_conservation (printing_env 120001 25)
    printing_state p0 (by decide)
    (by show (0 : ℚ) < 25 - printing_state.last_e_pos; rw [l0]; norm_num)
    (by show (25 : ℚ) - printing_state.last_e_pos < 1800; rw [l0]; norm_num)
    (by rw [c0]; norm_num) (by rw [t0]; norm_num)
  have h3' : (25 : ℚ)
      = 10 * n + (minute_count (printing_env 120001 25) printing_state).accumulated_e_diff := by
    have e : printing_state.accumulated_e_diff
        + ((printing_env 120001 25).current_position_E - printing_state.last_e_pos)
          * (printing_env 120001 25).volumetric_multiplier
            (printing_env 120001 25).active_extruder = 25 := by
      show printing_state.accumulated_e_diff + (25 - printing_state.last_e_pos) * 1 = 25
      rw [a0, l0]; norm_num
    rw [e] at h3
    exact h3
  have hn2 : n = 2 := by
    have hge : (2 : ℚ) ≤ n := by
      by_contra hc
      have : (n : ℚ) ≤ 1 := by
        have : n < 2 := by exact_mod_cast not_le.mp hc
        exact_mod_cast Nat.lt_succ_iff.mp this
      linarith
    have hpos : 0 < n := by
      have : (0 : ℚ) < n := by linarith
      exact_mod_cast this
    have hr := h5 hpos
    have hle : (n : ℚ) < 3 := by linarith
    have hle' : n < 3 := by exact_mod_cast hle
    have hge' : 2 ≤ n := by exact_mod_cast hge
    omega
  subst hn2
  rw [c0] at h1
  rw [t0] at h2
  refine ⟨h1, h2, ?_⟩
  push_cast at h3'
  linarith

/-! ## Lifetime and trip counters in lockstep -/

theorem diff32_succ (a b : Nat) : diff32 (u32 (a + 1)) (u32 (b + 1)) = diff32 a b := by
  simp only [diff32, u32]
  omega

theorem carry_loop_diff32 (n : Nat) : ∀ s : State,
    diff32 (carry_loop n s).lifetime_print_centimeters
        (carry_loop n s).triptime_print_centimeters
      = diff32 s.lifetime_print_centimeters s.triptime_print_centimeters := by
  induction n with
  | zero => intro s; rfl
  | succ n ih =>
    intro s
    by_cases hc : s.accumulated_e_diff > 10
    · simp only [carry_loop, if_pos hc]
      rw [ih]
      exact diff32_succ _ _
    · simp only [carry_loop, if_neg hc]

/-- The counting step keeps the three lifetime-minus-trip differences. -/
theorem minute_count_diff32 (env : Env) (s : State) :
    diff32 (minute_count env s).lifetime_minutes (minute_count env s).triptime_minutes
      = diff32 s.lifetime_minutes s.triptime_minutes ∧
    diff32 (minute_count env s).lifetime_print_minutes
        (minute_count env s).triptime_print_minutes
      = diff32 s.lifetime_print_minutes s.triptime_print_minutes ∧
    diff32 (minute_count env s).lifetime_print_centimeters
        (minute_count env s).triptime_print_centimeters
      = diff32 s.lifetime_print_centimeters s.triptime_print_centimeters := by
  obtain ⟨-, -, m3, m4, -, -⟩ := minute_count_fields env s
  refine ⟨by rw [m3, m4]; exact diff32_succ _ _, ?_⟩
  by_cases hp : s.is_printing = true
  · simp only [minute_count, if_pos hp]
    obtain ⟨-, -, -, -, f5, f6, -, -, -⟩ := printing_minute_frame env
      { s with
        minute_counter_millis := u32 (s.minute_counter_millis + MILLIS_MINUTE)
        lifetime_minutes := u32 (s.lifetime_minutes + 1)
        triptime_minutes := u32 (s.triptime_minutes + 1) }
    refine ⟨by rw [f5, f6]; exact diff32_succ _ _, ?_⟩
    simp only [printing_minute]
    split_ifs
    · exact carry_loop_diff32 _ _
    · rfl
  · simp only [minute_count, if_neg hp, and_self]

/-- All six counters after a tick are those after the counting step when the
minute deadline fires, and untouched otherwise. -/
theorem tick_counters (env : Env) (s : State) :
    (lifetime_stats_tick env s).counters
      = if s.minute_counter_millis < env.millis
        then (minute_count env s).counters else s.counters := by
  obtain ⟨-, -, -, g4, g5, g6, g7, g8, g9, -⟩ := hour_part_frame env (minute_part env s)
  unfold lifetime_stats_tick
  simp only [State.counters]
  rw [g4, g5, g6, g7, g8, g9]
  by_cases hfire : s.minute_counter_millis < env.millis
  · rw [if_pos hfire]
    simp only [minute_part, if_pos hfire, minute_block]
    obtain ⟨-, -, f3, f4, f5, f6, f7, f8⟩ := session_update_frame env (minute_count env s)
    rw [f3, f4, f5, f6, f7, f8]
  · rw [if_neg hfire]
    simp only [minute_part, if_neg hfire]

/-- C20: every tick leaves the three differences `lifetime_minutes -
triptime_minutes`, `lifetime_print_minutes - triptime_print_minutes` and
`lifetime_print_centimeters - triptime_print_centimeters` modulo `2 ^ 32` as
they were; a save leaves them too. -/
theorem lockstep (env : Env) (s : State) :
    diff32 (lifetime_stats_tick env s).lifetime_minutes
        (lifetime_stats_tick env s).triptime_minutes
      = diff32 s.lifetime_minutes s.triptime_minutes ∧
    diff32 (lifetime_stats_tick env s).lifetime_print_minutes
        (lifetime_stats_tick env s).triptime_print_minutes
      = diff32 s.lifetime_print_minutes s.triptime_print_minutes ∧
    diff32 (lifetime_stats_tick env s).lifetime_print_centimeters
        (lifetime_stats_tick env s).triptime_print_centimeters
      = diff32 s.lifetime_print_centimeters s.triptime_print_centimeters ∧
    diff32 (save_lifetime_stats s).lifetime_minutes (save_lifetime_stats s).triptime_minutes
      = diff32 s.lifetime_minutes s.triptime_minutes ∧
    diff32 (save_lifetime_stats s).lifetime_print_minutes
        (save_lifetime_stats s).triptime_print_minutes
      = diff32 s.lifetime_print_minutes s.triptime_print_minutes ∧
    diff32 (save_lifetime_stats s).lifetime_print_centimeters
        (save_lifetime_stats s).triptime_print_centimeters
      = diff32 s.lifetime_print_centimeters s.triptime_print_centimeters := by
  have hc := tick_counters env s
  obtain ⟨d1, d2, d3⟩ := minute_count_diff32 env s
  by_cases hfire : s.minute_counter_millis < env.millis
  · rw [if_pos hfire] at hc
    simp only [State.counters, List.cons.injEq, and_true] at hc
    obtain ⟨e1, e2, e3, e4, e5, e6⟩ := hc
    rw [e1, e2, e3, e4, e5, e6]
    exact ⟨d1, d2, d3, rfl, rfl, rfl⟩
  · rw [if_neg hfire] at hc
    simp only [State.counters, List.cons.injEq, and_true] at hc
    obtain ⟨e1, e2, e3, e4, e5, e6⟩ := hc
    rw [e1, e2, e3, e4, e5, e6]
    exact ⟨rfl, rfl, rfl, rfl, rfl, rfl⟩

/-! ## Monotonicity and overflow of the lifetime counters -/

/-- The print-minute counters after the counting step. -/
theorem minute_count_print_minutes (env : Env) (s : State) :
    (minute_count env s).lifetime_print_minutes
      = (if s.is_printing = true
          then u32 (s.lifetime_print_minutes + 1) else s.lifetime_print_minutes) ∧
    (minute_count env s).triptime_print_minutes
      = (if s.is_printing = true
          then u32 (s.triptime_print_minutes + 1) else s.triptime_print_minutes) := by
  by_cases hp : s.is_printing = true
  · rw [if_pos hp, if_pos hp]
    simp only [minute_count, if_pos hp]
    obtain ⟨-, -, -, -, f5, f6, -, -, -⟩ := printing_minute_frame env
      { s with
        minute_counter_millis := u32 (s.minute_counter_millis + MILLIS_MINUTE)
        lifetime_minutes := u32 (s.lifetime_minutes + 1)
        triptime_minutes := u32 (s.triptime_minutes + 1) }
    exact ⟨f5, f6⟩
  · rw [if_neg hp, if_neg hp]
    simp only [minute_count, if_neg hp, and_self]

/-- The lifetime length counter does not drop in the counting step as long as
the counter plus the fuel of the carry loop stays below `2 ^ 32`. -/
theorem minute_count_centimeters_le (env : Env) (s : State) (hc : s.Counters32)
    (hb : s.lifetime_print_centimeters
      + carry_fuel (s.accumulated_e_diff + (env.current_position_E - s.last_e_pos)
        * env.volumetric_multiplier env.active_extruder) < 2 ^ 32) :
    s.lifetime_print_centimeters ≤ (minute_count env s).lifetime_print_centimeters := by
  obtain ⟨-, -, c3, -, -, c6⟩ := hc
  by_cases hp : s.is_printing = true
  · by_cases hacc : (env.current_position_E - s.last_e_pos > 0
        ∧ env.current_position_E - s.last_e_pos < 60 * 30)
    · obtain ⟨n, hn, i1, -, -, -, -, -⟩ := minute_count_carry env s hp hacc.1 hacc.2 c3 c6
      rw [i1, Nat.mod_eq_of_lt (by omega)]
      omega
    · obtain ⟨-, r2, -⟩ := printing_minute_rejected env
        { s with
          minute_counter_millis := u32 (s.minute_counter_millis + MILLIS_MINUTE)
          lifetime_minutes := u32 (s.lifetime_minutes + 1)
          triptime_minutes := u32 (s.triptime_minutes + 1) } hacc
      simp only [minute_count, if_pos hp]
      rw [r2]
  · simp only [minute_count, if_neg hp]
    exact le_refl _

/-- C15 (as stated, refuted): loaded from a valid record whose counters are all
`2 ^ 32 - 1`, `lifetime_minutes` drops from 4294967295 to 0 at the first minute
tick. -/
theorem lifetime_minutes_wraps_to_zero :
    (lifetime_stats_init (idle_env 0) (power_on full_eeprom)).lifetime_minutes
      = 4294967295 ∧
    (lifetime_stats_tick (idle_env 60001)
      (lifetime_stats_init (idle_env 0) (power_on full_eeprom))).lifetime_minutes = 0 := by
  constructor <;> decide

/-- C15 (amended): on 32-bit counters a tick does not lower a lifetime counter
that has room for the tick's increments: `lifetime_minutes` and
`lifetime_print_minutes` when below `2 ^ 32 - 1`, `lifetime_print_centimeters`
when its value plus the bound `carry_fuel` on the carries of this tick is below
`2 ^ 32`. -/
theorem lifetime_counters_without_overflow (env : Env) (s : State) (hc : s.Counters32) :
    (s.lifetime_minutes + 1 < 2 ^ 32 →
      s.lifetime_minutes ≤ (lifetime_stats_tick env s).lifetime_minutes) ∧
    (s.lifetime_print_minutes + 1 < 2 ^ 32 →
      s.lifetime_print_minutes ≤ (lifetime_stats_tick env s).lifetime_print_minutes) ∧
    (s.lifetime_print_centimeters
        + carry_fuel (s.accumulated_e_diff + (env.current_position_E - s.last_e_pos)
          * env.volumetric_multiplier env.active_extruder) < 2 ^ 32 →
      s.lifetime_print_centimeters
        ≤ (lifetime_stats_tick env s).lifetime_print_centimeters) := by
  have ht := tick_counters env s
  by_cases hfire : s.minute_counter_millis < env.millis
  · rw [if_pos hfire] at ht
    simp only [State.counters, List.cons.injEq, and_true] at ht
    obtain ⟨e1, e2, e3, -, -, -⟩ := ht
    obtain ⟨-, -, m3, -, -, -⟩ := minute_count_fields env s
    obtain ⟨p1, -⟩ := minute_count_print_minutes env s
    rw [e1, e2, e3, m3, p1]
    refine ⟨?_, ?_, fun hb => minute_count_centimeters_le env s hc hb⟩
    · intro h
      rw [u32, Nat.mod_eq_of_lt h]
      omega
    · intro h
      split_ifs
      · rw [u32, Nat.mod_eq_of_lt h]
        omega
      · exact le_refl _
  · rw [if_neg hfire] at ht
    simp only [State.counters, List.cons.injEq, and_true] at ht
    obtain ⟨e1, e2, e3, -, -, -⟩ := ht
    rw [e1, e2, e3]
    exact ⟨fun _ => le_refl _, fun _ => le_refl _, fun _ => le_refl _⟩

theorem lifetime_counters_without_overflow_witness :
    sample_state.lifetime_minutes + 1 < 2 ^ 32 ∧
    sample_state.lifetime_minutes
      ≤ (lifetime_stats_tick (idle_env 60001) sample_state).lifetime_minutes := by
  have h := lifetime_counters_without_overflow (idle_env 60001) sample_state
    sample_state_counters32
  exact ⟨by decide, h.1 (by decide)⟩

/-! ## The accumulator across ticks -/

/-- The accumulator after a tick: zero when the minute deadline fires under a
busy oracle, the value left by the counting step when it fires under an idle
oracle, untouched when it does not fire. -/
theorem tick_accumulator (env : Env) (s : State) :
    (lifetime_stats_tick env s).accumulated_e_diff
      = if s.minute_counter_millis < env.millis
        then (if env.movesplanned ≠ 0 ∨ env.IS_SD_PRINTING = true
          then 0 else (minute_count env s).accumulated_e_diff)
        else s.accumulated_e_diff := by
  unfold lifetime_stats_tick
  rw [(hour_part_frame env (minute_part env s)).2.2.1]
  by_cases hfire : s.minute_counter_millis < env.millis
  · rw [if_pos hfire]
    by_cases hb : env.movesplanned ≠ 0 ∨ env.IS_SD_PRINTING = true
    · rw [if_pos hb]
      simp only [minute_part, if_pos hfire, minute_block, session_update, if_pos hb]
    · rw [if_neg hb]
      simp only [minute_part, if_pos hfire, minute_block, session_update, if_neg hb]
      generalize minute_count env s = mid
      by_cases hp : mid.is_printing = true
      · simp only [if_pos hp, save_lifetime_stats]
      · simp only [if_neg hp]
  · rw [if_neg hfire]
    simp only [minute_part, if_neg hfire]

/-- C16 (the code at a failing input): in the print of `printing_state` the next
minute tick, still under a busy oracle, sees an accepted delta of 5.0; the carry
loop leaves the remainder 5, and the tick ends with the accumulator at 0. -/
theorem busy_tick_resets_remainder :
    printing_state.is_printing = true ∧
    (minute_count (printing_env 120001 5) printing_state).accumulated_e_diff = 5 ∧
    (lifetime_stats_tick (printing_env 120001 5) printing_state).is_printing = true ∧
    (lifetime_stats_tick (printing_env 120001 5) printing_state).accumulated_e_diff = 0 := by
  obtain ⟨p0, a0, l0, m0, -, -⟩ := printing_state_fields
  have hd0 : (printing_env 120001 5).current_position_E - printing_state.last_e_pos > 0 := by
    show (5 : ℚ) - printing_state.last_e_pos > 0
    rw [l0]; norm_num
  have hd1 : (printing_env 120001 5).current_position_E - printing_state.last_e_pos
      < 60 * 30 := by
    show (5 : ℚ) - printing_state.last_e_pos < 60 * 30
    rw [l0]; norm_num
  have hsum : printing_state.accumulated_e_diff
      + ((printing_env 120001 5).current_position_E - printing_state.last_e_pos)
        * (printing_env 120001 5).volumetric_multiplier
          (printing_env 120001 5).active_extruder = 5 := by
    show printing_state.accumulated_e_diff + (5 - printing_state.last_e_pos) * 1 = 5
    rw [a0, l0]; norm_num
  obtain ⟨-, -, c3⟩ := minute_count_small_delta (printing_env 120001 5) printing_state p0
    hd0 hd1 (by rw [hsum]; norm_num)
  obtain ⟨b1, b2, -, -, -⟩ := busy_tick (printing_env 120001 5) printing_state
    (by decide) (Or.inr rfl)
  exact ⟨p0, c3.trans hsum, b1, b2⟩

theorem carry_loop_nonneg (n : Nat) : ∀ s : State,
    0 ≤ s.accumulated_e_diff → 0 ≤ (carry_loop n s).accumulated_e_diff := by
  induction n with
  | zero => intro s h; exact h
  | succ n ih =>
    intro s h
    by_cases hc : s.accumulated_e_diff > 10
    · simp only [carry_loop, if_pos hc]
      apply ih
      show 0 ≤ s.accumulated_e_diff - 10
      linarith
    · simp only [carry_loop, if_neg hc]
      exact h

/-- The counting step keeps the accumulator within `[0, 10]` under a
non-negative multiplier. -/
theorem minute_count_accumulator_range (env : Env) (s : State)
    (hm : 0 ≤ env.volumetric_multiplier env.active_extruder)
    (h0 : 0 ≤ s.accumulated_e_diff) (h1 : s.accumulated_e_diff ≤ 10) :
    0 ≤ (minute_count env s).accumulated_e_diff
      ∧ (minute_count env s).accumulated_e_diff ≤ 10 := by
  by_cases hp : s.is_printing = true
  · by_cases hacc : (env.current_position_E - s.last_e_pos > 0
        ∧ env.current_position_E - s.last_e_pos < 60 * 30)
    · simp only [minute_count, if_pos hp, printing_minute, if_pos hacc]
      constructor
      · apply carry_loop_nonneg
        show 0 ≤ s.accumulated_e_diff + (env.current_position_E - s.last_e_pos)
          * env.volumetric_multiplier env.active_extruder
        have := mul_nonneg (le_of_lt hacc.1) hm
        linarith
      · exact carry_loop_exit _ _ (carry_fuel_bound _)
    · obtain ⟨r1, -, -⟩ := printing_minute_rejected env
        { s with
          minute_counter_millis := u32 (s.minute_counter_millis + MILLIS_MINUTE)
          lifetime_minutes := u32 (s.lifetime_minutes + 1)
          triptime_minutes := u32 (s.triptime_minutes + 1) } hacc
      simp only [minute_count, if_pos hp]
      rw [r1]
      exact ⟨h0, h1⟩
  · simp only [minute_count, if_neg hp]
    exact ⟨h0, h1⟩

/-- The accumulator range `[0, 10]` over states reached with non-negative
multipliers. -/
theorem reachable_scaled_accumulator (s : State) (h : ReachableScaled s) :
    0 ≤ s.accumulated_e_diff ∧ s.accumulated_e_diff ≤ 10 := by
  induction h with
  | init env e =>
    rw [(init_fields env (power_on e)).2.2.2.2.1]
    show (0 : ℚ) ≤ 0 ∧ (0 : ℚ) ≤ 10
    norm_num
  | tick env s hm _ ih =>
    rw [tick_accumulator env s]
    split_ifs
    · norm_num
    · exact minute_count_accumulator_range env s hm ih.1 ih.2
    · exact ih
  | reset s _ ih => exact ih

theorem coasting_state_reachable : ReachableScaled coasting_state :=
  ReachableScaled.tick _ _ (by show (0 : ℚ) ≤ 1; norm_num)
    (ReachableScaled.tick _ _ (by show (0 : ℚ) ≤ 1; norm_num) (ReachableScaled.init _ _))

/-- C17 (as stated, refuted): one minute into a print the E axis has advanced by
exactly 10.0 at scale 1 and the oracle has gone idle; the loop test `> 10`
carries nothing and the accumulator rests at 10, outside `[0, 10)`. -/
theorem accumulator_rests_at_ten :
    ReachableScaled coasting_state ∧ coasting_state.accumulated_e_diff = 10 ∧
    ¬ coasting_state.accumulated_e_diff < 10 := by
  obtain ⟨p0, a0, l0, m0, -, -⟩ := printing_state_fields
  have hd0 : (coasting_env 120001 10).current_position_E - printing_state.last_e_pos > 0 := by
    show (10 : ℚ) - printing_state.last_e_pos > 0
    rw [l0]; norm_num
  have hd1 : (coasting_env 120001 10).current_position_E - printing_state.last_e_pos
      < 60 * 30 := by
    show (10 : ℚ) - printing_state.last_e_pos < 60 * 30
    rw [l0]; norm_num
  have hsum : printing_state.accumulated_e_diff
      + ((coasting_env 120001 10).current_position_E - printing_state.last_e_pos)
        * (coasting_env 120001 10).volumetric_multiplier
          (coasting_env 120001 10).active_extruder = 10 := by
    show printing_state.accumulated_e_diff + (10 - printing_state.last_e_pos) * 1 = 10
    rw [a0, l0]; norm_num
  obtain ⟨-, -, c3⟩ := minute_count_small_delta (coasting_env 120001 10) printing_state p0
    hd0 hd1 (by rw [hsum])
  have hfire : printing_state.minute_counter_millis < (coasting_env 120001 10).millis := by
    decide
  have hidle : ¬ ((coasting_env 120001 10).movesplanned ≠ 0
      ∨ (coasting_env 120001 10).IS_SD_PRINTING = true) := by decide
  have hacc : coasting_state.accumulated_e_diff = 10 := by
    unfold coasting_state
    rw [tick_accumulator, if_pos hfire, if_neg hidle, c3, hsum]
  refine ⟨coasting_state_reachable, hacc, ?_⟩
  rw [hacc]
  norm_num

/-- C17 (amended): in every state reached from `lifetime_stats_init` by ticks
with non-negative multipliers (and trip resets), `0 ≤ accumulated_e_diff ≤ 10`. -/
theorem accumulator_range (s : State) (h : ReachableScaled s) :
    0 ≤ s.accumulated_e_diff ∧ s.accumulated_e_diff ≤ 10 :=
  reachable_scaled_accumulator s h

theorem accumulator_range_witness :
    0 ≤ coasting_state.accumulated_e_diff ∧ coasting_state.accumulated_e_diff ≤ 10 :=
  accumulator_range coasting_state coasting_state_reachable

end LifetimeStats
